/-
Verification of the JudgeMate project-evaluation core.

This file gives a shallow embedding, in Lean 4, of the four core modules of
the repository — the GitHub repository analyzer (`src/lib/githubAnalyzer.ts`),
the plagiarism detector (`src/lib/plagiarism.ts`), the heuristic scoring
engine (`src/lib/aiScoring.ts`) and the mentorship verification gate
(`src/lib/aiMentorship.ts`) — together with theorems settling the spec claims
about them.

Conventions of the embedding:
* TypeScript `number` values are modelled as rationals (`ℚ`); all arithmetic
  in the scoring pipeline is on small decimal constants, where IEEE doubles
  and rationals agree.
* `Math.round` is modelled by `jsRound` (round half toward +infinity).
* JavaScript strings are Lean `String`s; `String.includes`, `startsWith`,
  `split`, `trim` and `toLowerCase` are reimplemented below on `List Char`
  (ASCII behaviour, which covers every pattern constant in the sources).
* Network I/O is not executable: the analyzer's remote fetch is modelled by
  an explicit `FetchOutcome` oracle argument, and the mentorship engine's
  LLM/backend path by an abstract continuation argument.  Everything after
  the I/O boundary is embedded from the source.
* Fields of the source records that no verified component ever reads
  (star counts, timestamps, file-extension maps, top-level item lists, …)
  are omitted from the Lean structures; a comment marks each omission.
-/
import Mathlib

/-! ## Generic JavaScript-semantics helpers -/

/-- Model of `Math.round`: round half away from minus infinity (JS rounds -2.5 to -2). -/
def jsRound (q : ℚ) : ℤ := ⌊q + 1/2⌋

/-- The clamping helper used throughout the sources:
`Math.min(max, Math.max(min, Math.round(value)))` with the default range [1,10]
(`clamp` in aiScoring.ts; the same inline formula in githubAnalyzer.ts). -/
def clamp (v : ℚ) : ℤ := min 10 (max 1 (jsRound v))

/-- Whitespace class used by JS `\s`, `trim` (ASCII part). -/
def isWsChar (c : Char) : Bool :=
  c == ' ' || c == '\t' || c == '\n' || c == '\r' || c == '\x0b' || c == '\x0c'

/-- JS `String.prototype.trim`. -/
def trimList (s : List Char) : List Char :=
  ((s.dropWhile isWsChar).reverse.dropWhile isWsChar).reverse

def trimStr (s : String) : String := ⟨trimList s.data⟩

/-- JS `String.prototype.toLowerCase` (ASCII range). -/
def lowerStr (s : String) : String := ⟨s.data.map Char.toLower⟩

/-- Is `p` a prefix of `s` (Bool-valued, on char lists)? -/
def isPrefixList : List Char → List Char → Bool
  | [], _ => true
  | _ :: _, [] => false
  | p :: ps, c :: cs => p == c && isPrefixList ps cs

/-- Case-insensitive prefix test (used by the case-insensitive URL regex). -/
def isPrefixCI : List Char → List Char → Bool
  | [], _ => true
  | _ :: _, [] => false
  | p :: ps, c :: cs => p.toLower == c.toLower && isPrefixCI ps cs

/-- JS `String.prototype.includes`, on char lists. -/
def hasSub : List Char → List Char → Bool
  | [], pat => pat.isEmpty
  | c :: rest, pat => isPrefixList pat (c :: rest) || hasSub rest pat

/-- JS `String.prototype.includes`. -/
def strIncludes (s pat : String) : Bool := hasSub s.data pat.data

/-- JS `String.prototype.startsWith`. -/
def strStartsWith (s pat : String) : Bool := isPrefixList pat.data s.data

/-- JS `String.prototype.endsWith`. -/
def strEndsWith (s pat : String) : Bool := isPrefixList pat.data.reverse s.data.reverse

mutual

/-- Inside-a-token state of the run splitter (`String.split` on a
one-character-class regex such as `/\s+/`). -/
def splitRunsTok (sep : Char → Bool) (acc : List Char) : List Char → List (List Char)
  | [] => [acc.reverse]
  | c :: rest =>
      if sep c then acc.reverse :: splitRunsSep sep rest else splitRunsTok sep (c :: acc) rest

/-- Inside-a-separator-run state of the run splitter. -/
def splitRunsSep (sep : Char → Bool) : List Char → List (List Char)
  | [] => [[]]
  | c :: rest => if sep c then splitRunsSep sep rest else splitRunsTok sep [c] rest

end

/-- JS `s.split(/X+/)` for a character class `X`: splits on maximal runs,
keeping leading/trailing empty pieces exactly as V8 does. -/
def splitRuns (sep : Char → Bool) (s : List Char) : List (List Char) :=
  splitRunsTok sep [] s

/-- JS `s.split("c")` for a single-character separator (keeps empty pieces). -/
def splitOnChar (sep : Char) : List Char → List (List Char)
  | [] => [[]]
  | c :: rest =>
      if c = sep then [] :: splitOnChar sep rest
      else
        match splitOnChar sep rest with
        | s :: ss => (c :: s) :: ss
        | [] => [[c]]

/-- First-occurrence deduplication, the iteration order of a JS `Map`/`Set`. -/
def dedupKeepFirst (seen : List String) : List String → List String
  | [] => []
  | a :: rest =>
      if a ∈ seen then dedupKeepFirst seen rest
      else a :: dedupKeepFirst (a :: seen) rest

/-- Truthiness of an optional JS string (`undefined`, `null` and `""` are falsy). -/
def optTruthy : Option String → Bool
  | some s => s != ""
  | none => false

/-! ## githubAnalyzer.ts — repository analyzer -/

/-- One entry of the GitHub commits payload, reduced to the three facts the
analyzer reads from it: the resolved author name
(`c.commit?.author?.name || c.author?.login || "unknown"`), the parsed commit
date in milliseconds (`none` models an invalid/missing date, which the source
filters out), and the commit message. -/
structure CommitRaw where
  author : String
  timestamp : Option ℤ
  message : String
deriving DecidableEq

/-- One entry of the recursive git tree payload. -/
structure TreeItemRaw where
  path : String
  type : String
deriving DecidableEq

/-- The `GitHubAnalysis` record. Metadata fields never read by the detector,
the scorer or the mentorship gate (stars, forks count, issue counts, dates,
visibility, default branch, size, file-extension map, top-level items,
commit timeline, first/last commit date) are omitted. -/
structure GitHubAnalysis where
  fetched : Bool
  error : Option String
  repoDescription : Option String
  isForked : Bool
  isMirror : Bool
  hasReadme : Bool
  hasLicense : Bool
  languages : List (String × ℤ)
  primaryLanguage : String
  totalCommits : ℕ
  commitAuthors : List String
  avgTimeBetweenCommits : ℚ
  burstCommitScore : ℚ
  singleAuthorPercent : ℚ
  totalFiles : ℕ
  totalDirs : ℕ
  hasPackageJson : Bool
  hasRequirements : Bool
  hasDockerfile : Bool
  hasCIConfig : Bool
  hasTests : Bool
  hasEnvExample : Bool
  structureDepth : ℕ
  modularityScore : ℚ
  cleanlinessScore : ℚ
  commitGenuineness : ℚ
  overallRepoScore : ℚ
  flags : List String
  positives : List String
deriving DecidableEq

/-- Valid commit dates, sorted ascending (the source parses, filters `NaN`
dates and sorts by epoch milliseconds). -/
def commitDates (commits : List CommitRaw) : List ℤ :=
  List.insertionSort (· ≤ ·) (commits.filterMap (·.timestamp))

/-- Consecutive differences of a list. -/
def consecGaps : List ℤ → List ℤ
  | a :: b :: rest => (b - a) :: consecGaps (b :: rest)
  | _ => []

/-- Number of distinct UTC calendar days among the commit dates
(`toISOString().slice(0, 10)` buckets). -/
def distinctDayCount (dates : List ℤ) : ℕ :=
  ((dates.map (fun t => Int.fdiv t 86400000)).dedup).length

/-- Sum of the inter-commit gaps, in hours. -/
def totalGapHours (dates : List ℤ) : ℚ :=
  ((consecGaps dates).map (fun g => (g : ℚ) / (1000 * 60 * 60))).sum

/-- The `avgTimeBetweenCommits` field: mean gap in hours, rounded to one decimal. -/
def avgGapRounded (dates : List ℤ) : ℚ :=
  if 1 < dates.length then
    ((jsRound (totalGapHours dates / ((dates.length : ℚ) - 1) * 10) : ℤ) : ℚ) / 10
  else 0

/-- Total time span of the commit history, in hours. -/
def spanHours (dates : List ℤ) : ℚ :=
  if 2 ≤ dates.length then
    ((dates.getLast?.getD 0 - dates.head?.getD 0 : ℤ) : ℚ) / (1000 * 60 * 60)
  else 0

/-- The burst-detection decision chain of `analyzeCommits`, exactly as in the
source: ordered `if`/`else if` rules, first match wins. -/
def burstBase (n totalDays : ℕ) (span avg : ℚ) : ℚ :=
  if n ≤ 2 then 70
  else if totalDays = 1 then 90
  else if span < 4 then 85
  else if totalDays ≤ 2 ∧ 5 < n then 65
  else if avg < 0.5 ∧ 3 < n then 60
  else if 3 ≤ totalDays ∧ 2 ≤ avg then 15
  else 30

/-- The generic commit-message patterns checked against lowercased messages. -/
def aiCommitPatterns : List String :=
  ["initial commit", "add files", "update", "first commit", "auto", "generated"]

/-- Number of commit messages that equal or start with a generic pattern. -/
def aiMsgCount (commits : List CommitRaw) : ℕ :=
  ((commits.map (fun c => lowerStr c.message)).filter
    (fun m => aiCommitPatterns.any (fun p => m == p || strStartsWith m p))).length

/-- The `aiMsgCount > commits.length * 0.6` test (exact rational arithmetic;
the IEEE computation agrees on these integer thresholds). -/
def genericMsgHeavy (commits : List CommitRaw) : Bool :=
  decide ((aiMsgCount commits : ℚ) > (commits.length : ℚ) * 0.6)

/-- The `burstCommitScore` of a commit list: 100 for an empty list, otherwise the
decision chain plus the +20 generic-message bonus capped at 100. -/
def burstScore (commits : List CommitRaw) : ℚ :=
  if commits.isEmpty then 100
  else
    let d := commitDates commits
    let b := burstBase commits.length (distinctDayCount d) (spanHours d) (avgGapRounded d)
    if genericMsgHeavy commits then min (b + 20) 100 else b

/-- The commit author names in payload order. -/
def authorNames (commits : List CommitRaw) : List String := commits.map (·.author)

/-- Model of `Math.max(...authorMap.values())`: the largest per-author commit count. -/
def topAuthorCount (commits : List CommitRaw) : ℕ :=
  ((authorNames commits).map (fun a => (authorNames commits).count a)).foldl max 0

/-- The `singleAuthorPercent` of a commit list (100 for an empty list, as in the
source's early return). -/
def singleAuthorPct (commits : List CommitRaw) : ℚ :=
  if commits.isEmpty then 100
  else (jsRound ((topAuthorCount commits : ℚ) / (commits.length : ℚ) * 100) : ℤ)

/-- The result shape of `analyzeCommits` (commit timeline and first/last
date fields omitted: no verified component reads them). -/
structure CommitStats where
  totalCommits : ℕ
  commitAuthors : List String
  avgTimeBetweenCommits : ℚ
  burstCommitScore : ℚ
  singleAuthorPercent : ℚ
  flags : List String
  positives : List String
deriving DecidableEq

/-- Flag produced by the burst decision chain (paired with `burstBase`). -/
def burstFlags (n totalDays : ℕ) (span avg : ℚ) : List String :=
  if n ≤ 2 then [s!"Only {n} commit(s) — very minimal development history"]
  else if totalDays = 1 then ["⚠️ All commits pushed in a SINGLE DAY — likely AI-generated code dump"]
  else if span < 4 then ["⚠️ All commits within a few hours — suspicious bulk push pattern"]
  else if totalDays ≤ 2 ∧ 5 < n then ["Most commits concentrated in 1-2 days — limited iterative development"]
  else if avg < 0.5 ∧ 3 < n then ["Rapid-fire commits (avg < 30 min apart) — possible automated generation"]
  else []

/-- Positive produced by the healthy branch of the burst decision chain. -/
def burstPositives (n totalDays : ℕ) (span avg : ℚ) : List String :=
  if n ≤ 2 then []
  else if totalDays = 1 then []
  else if span < 4 then []
  else if totalDays ≤ 2 ∧ 5 < n then []
  else if avg < 0.5 ∧ 3 < n then []
  else if 3 ≤ totalDays ∧ 2 ≤ avg then
    [s!"Healthy commit pattern: {totalDays} active days, avg {avg}h between commits"]
  else []

/-- Embedding of `analyzeCommits` from githubAnalyzer.ts. -/
def analyzeCommits (commits : List CommitRaw) : CommitStats :=
  if commits.isEmpty then
    { totalCommits := 0, commitAuthors := [], avgTimeBetweenCommits := 0,
      burstCommitScore := 100, singleAuthorPercent := 100,
      flags := ["No commits found"], positives := [] }
  else
    let n := commits.length
    let commitAuthors := dedupKeepFirst [] (authorNames commits)
    let d := commitDates commits
    let days := distinctDayCount d
    let avg := avgGapRounded d
    let span := spanHours d
    let genericFlag : List String :=
      if genericMsgHeavy commits then
        ["Most commit messages are generic (\x27initial commit\x27, \x27update\x27) — lacks meaningful descriptions"]
      else []
    let singleFlag : List String :=
      if singleAuthorPct commits = 100 ∧ 3 < n then
        ["Single author for all commits — no evidence of team collaboration in code"]
      else []
    let contribPositive : List String :=
      if 2 ≤ commitAuthors.length then
        let na := commitAuthors.length
        let joined := String.intercalate ", " commitAuthors
        [s!"{na} contributors found: {joined}"]
      else []
    { totalCommits := n,
      commitAuthors := commitAuthors,
      avgTimeBetweenCommits := avg,
      burstCommitScore := burstScore commits,
      singleAuthorPercent := singleAuthorPct commits,
      flags := burstFlags n days span avg ++ genericFlag ++ singleFlag,
      positives := burstPositives n days span avg ++ contribPositive }

/-- The result shape of `analyzeTree` (file-extension map and top-level item
list omitted: no verified component reads them). -/
structure TreeStats where
  totalFiles : ℕ
  totalDirs : ℕ
  hasPackageJson : Bool
  hasRequirements : Bool
  hasDockerfile : Bool
  hasCIConfig : Bool
  hasTests : Bool
  hasEnvExample : Bool
  structureDepth : ℕ
  modularityScore : ℚ
  flags : List String
  positives : List String
deriving DecidableEq

/-- The modularity accumulation of `analyzeTree` (base 3, the tiered
additions and the three penalties), before rounding and clamping. -/
def treeModularityRaw (totalFiles totalDirs structureDepth : ℕ)
    (hasDockerfile hasCIConfig hasTests hasEnvExample : Bool) : ℚ :=
  3 + (if 3 ≤ totalDirs then 1 else 0)
    + (if 6 ≤ totalDirs then 1 else 0)
    + (if 3 ≤ structureDepth then 0.5 else 0)
    + (if 5 ≤ structureDepth then 0.5 else 0)
    + (if 10 ≤ totalFiles then 0.5 else 0)
    + (if 25 ≤ totalFiles then 0.5 else 0)
    + (if 50 ≤ totalFiles then 1 else 0)
    + (if hasDockerfile then 0.5 else 0)
    + (if hasCIConfig then 1 else 0)
    + (if hasTests then 1 else 0)
    + (if hasEnvExample then 0.5 else 0)
    - (if totalFiles ≤ 3 then 2 else 0)
    - (if totalDirs = 0 then 1 else 0)
    - (if 10 < totalFiles ∧ totalDirs ≤ 1 then 1 else 0)

/-- Embedding of `analyzeTree` from githubAnalyzer.ts. -/
def analyzeTree (tree : List TreeItemRaw) : TreeStats :=
  let files := tree.filter (fun t => t.type == "blob")
  let dirs := tree.filter (fun t => t.type == "tree")
  let totalFiles := files.length
  let totalDirs := dirs.length
  let allPaths := tree.map (fun t => lowerStr t.path)
  let hasPackageJson := allPaths.any (fun p => p == "package.json" || strEndsWith p "/package.json")
  let hasRequirements := allPaths.any (fun p =>
    strIncludes p "requirements.txt" || strIncludes p "pyproject.toml" || strIncludes p "pipfile")
  let hasDockerfile := allPaths.any (fun p =>
    strIncludes p "dockerfile" || strIncludes p "docker-compose")
  let hasCIConfig := allPaths.any (fun p =>
    strIncludes p ".github/workflows" || strIncludes p ".gitlab-ci" ||
    strIncludes p "jenkinsfile" || strIncludes p ".circleci")
  let hasTests := allPaths.any (fun p =>
    strIncludes p "test" || strIncludes p "spec" || strIncludes p "__tests__")
  let hasEnvExample := allPaths.any (fun p =>
    strIncludes p ".env.example" || strIncludes p ".env.sample")
  let depths := tree.map (fun t => (splitOnChar '/' t.path.data).length)
  let structureDepth := depths.foldl max 1
  let m : ℚ :=
    treeModularityRaw totalFiles totalDirs structureDepth
      hasDockerfile hasCIConfig hasTests hasEnvExample
  { totalFiles := totalFiles,
    totalDirs := totalDirs,
    hasPackageJson := hasPackageJson,
    hasRequirements := hasRequirements,
    hasDockerfile := hasDockerfile,
    hasCIConfig := hasCIConfig,
    hasTests := hasTests,
    hasEnvExample := hasEnvExample,
    structureDepth := structureDepth,
    modularityScore := (clamp m : ℤ),
    flags :=
      (if totalFiles ≤ 3 then ["Very few files — possibly incomplete or single-file dump"] else [])
      ++ (if totalDirs = 0 then ["No subdirectories — all code in root folder"] else [])
      ++ (if 10 < totalFiles ∧ totalDirs ≤ 1 then
            ["Many files but flat structure — lacks proper code organization"] else []),
    positives :=
      (if 3 ≤ totalDirs then [s!"{totalDirs} directories — organized structure"] else [])
      ++ (if 6 ≤ totalDirs then ["Deep directory hierarchy — good separation of concerns"] else [])
      ++ (if 50 ≤ totalFiles then [s!"{totalFiles} files — substantial codebase"] else [])
      ++ (if hasDockerfile then ["Docker configuration found"] else [])
      ++ (if hasCIConfig then ["CI/CD pipeline configured"] else [])
      ++ (if hasTests then ["Test files found"] else [])
      ++ (if hasEnvExample then [".env.example present — good security practice"] else []) }

/-- The repository-metadata payload fields that the analyzer reads after the
fetch (booleans are the truthiness of the corresponding JSON fields). -/
structure RepoInfoRaw where
  name : String
  fullName : String
  description : Option String
  fork : Bool
  mirrorUrl : Option String
deriving DecidableEq

/-- The cleanliness accumulation of `analyzeGitHubRepo` (base 4, the six
bonuses and the few-files penalty), before rounding and clamping. -/
def cleanlinessRaw (hasReadme hasLicense multiLang hasEnvExample hasTests
    hasDescription : Bool) (totalFiles : ℕ) : ℚ :=
  4 + (if hasReadme then 1.5 else 0)
    + (if hasLicense then 0.5 else 0)
    + (if multiLang then 0.5 else 0)
    + (if hasEnvExample then 0.5 else 0)
    + (if hasTests then 1 else 0)
    + (if hasDescription then 0.5 else 0)
    - (if totalFiles ≤ 3 then 2 else 0)

/-- Largest-byte-count language (the source sorts entries descending by bytes
and takes the head; ties keep the earlier entry). -/
def primaryLangOf : List (String × ℤ) → String
  | [] => "Unknown"
  | e :: rest =>
      let best := rest.foldl (fun acc x => if acc.2 < x.2 then x else acc) e
      best.1

/-- The fetched-path body of `analyzeGitHubRepo`, applied to the four
sub-fetch payloads (each sub-fetch falls back to an empty payload on its own
failure, so the arguments here are the post-fallback values). -/
def analyzeGitHubRepoFetched (repoInfo : RepoInfoRaw) (commits : List CommitRaw)
    (languages : List (String × ℤ)) (treeItems : List TreeItemRaw) : GitHubAnalysis :=
  let commitAnalysis := analyzeCommits commits
  let treeAnalysis := analyzeTree treeItems
  let langCount := languages.length
  let hasReadme := treeItems.any (fun t => strStartsWith (lowerStr t.path) "readme")
  let hasLicense := treeItems.any (fun t => strStartsWith (lowerStr t.path) "license")
  let isForked := repoInfo.fork
  let isMirror := optTruthy repoInfo.mirrorUrl
  let allFlags := commitAnalysis.flags ++ treeAnalysis.flags
    ++ (if isForked then ["⚠️ Repository is a FORK — not original code"] else [])
    ++ (if isMirror then ["⚠️ Repository is a MIRROR — copied from elsewhere"] else [])
    ++ (if hasReadme then [] else ["No README.md — poor documentation"])
  let allPositives := commitAnalysis.positives ++ treeAnalysis.positives
    ++ (if hasReadme then ["README.md present"] else [])
    ++ (if hasLicense then ["License file present"] else [])
    ++ (if 3 ≤ langCount then
          let top4 := String.intercalate ", " ((languages.map (·.1)).take 4)
          [s!"Multi-language project: {top4}"]
        else [])
  let cleanlinessScore : ℚ := (clamp
    (cleanlinessRaw hasReadme hasLicense (decide (2 ≤ langCount))
      treeAnalysis.hasEnvExample treeAnalysis.hasTests
      (optTruthy repoInfo.description) treeAnalysis.totalFiles) : ℤ)
  let commitGenuineness : ℚ := (clamp (10 - commitAnalysis.burstCommitScore / 10) : ℤ)
  let overallRepoScore : ℚ := (clamp (
      treeAnalysis.modularityScore * 0.3
    + cleanlinessScore * 0.25
    + commitGenuineness * 0.35
    + (if isForked then -2 else 0)
    + (if isMirror then -2 else 0)
    + (if treeAnalysis.hasTests then 0.5 else 0)
    + (if treeAnalysis.hasCIConfig then 0.5 else 0)) : ℤ)
  { fetched := true,
    error := none,
    repoDescription := repoInfo.description,
    isForked := isForked,
    isMirror := isMirror,
    hasReadme := hasReadme,
    hasLicense := hasLicense,
    languages := languages,
    primaryLanguage := primaryLangOf languages,
    totalCommits := commitAnalysis.totalCommits,
    commitAuthors := commitAnalysis.commitAuthors,
    avgTimeBetweenCommits := commitAnalysis.avgTimeBetweenCommits,
    burstCommitScore := commitAnalysis.burstCommitScore,
    singleAuthorPercent := commitAnalysis.singleAuthorPercent,
    totalFiles := treeAnalysis.totalFiles,
    totalDirs := treeAnalysis.totalDirs,
    hasPackageJson := treeAnalysis.hasPackageJson,
    hasRequirements := treeAnalysis.hasRequirements,
    hasDockerfile := treeAnalysis.hasDockerfile,
    hasCIConfig := treeAnalysis.hasCIConfig,
    hasTests := treeAnalysis.hasTests,
    hasEnvExample := treeAnalysis.hasEnvExample,
    structureDepth := treeAnalysis.structureDepth,
    modularityScore := treeAnalysis.modularityScore,
    cleanlinessScore := cleanlinessScore,
    commitGenuineness := commitGenuineness,
    overallRepoScore := overallRepoScore,
    flags := allFlags,
    positives := allPositives }

/-- Embedding of `createEmptyAnalysis` from githubAnalyzer.ts: the fetch-failure record
with conservative mid-range defaults. -/
def createEmptyAnalysis (error : String) : GitHubAnalysis :=
  { fetched := false,
    error := some error,
    repoDescription := none,
    isForked := false,
    isMirror := false,
    hasReadme := false,
    hasLicense := false,
    languages := [],
    primaryLanguage := "Unknown",
    totalCommits := 0,
    commitAuthors := [],
    avgTimeBetweenCommits := 0,
    burstCommitScore := 50,
    singleAuthorPercent := 100,
    totalFiles := 0,
    totalDirs := 0,
    hasPackageJson := false,
    hasRequirements := false,
    hasDockerfile := false,
    hasCIConfig := false,
    hasTests := false,
    hasEnvExample := false,
    structureDepth := 0,
    modularityScore := 3,
    cleanlinessScore := 3,
    commitGenuineness := 3,
    overallRepoScore := 3,
    flags := [error],
    positives := [] }

/-! URL parsing: `/github\.com\/([^/\s]+)\/([^/\s?#]+)/i`.  The pattern has no
intra-position backtracking (each `[...]+` group is a maximal run whose
follower is outside the class), so first-match search over start positions is
an exact model of the regex engine. -/

def notSlashWs (c : Char) : Bool := !(c == '/' || isWsChar c)

def notSlashWsQH (c : Char) : Bool :=
  !(c == '/' || isWsChar c || c == '?' || c == '#')

/-- Attempt the owner/repo pattern at the head of `s`; `p1`/`p2` are the
character classes of the two capture groups. -/
def tryGhAt (p1 p2 : Char → Bool) (s : List Char) : Option (List Char × List Char) :=
  if isPrefixCI "github.com/".data s then
    let rest := s.drop "github.com/".data.length
    let g1 := rest.takeWhile p1
    if g1.isEmpty then none
    else
      match rest.drop g1.length with
      | '/' :: rest2 =>
          let g2 := rest2.takeWhile p2
          if g2.isEmpty then none else some (g1, g2)
      | _ => none
  else none

/-- Leftmost match of the owner/repo pattern. -/
def findGh (p1 p2 : Char → Bool) : List Char → Option (List Char × List Char)
  | [] => none
  | c :: rest =>
      match tryGhAt p1 p2 (c :: rest) with
      | some r => some r
      | none => findGh p1 p2 rest

/-- Model of `repo.replace(/\.git$/, "")`. -/
def stripGitSuffix (r : List Char) : List Char :=
  if isPrefixList ".git".data.reverse r.reverse then r.take (r.length - 4) else r

/-- Embedding of `parseGitHubUrl` from githubAnalyzer.ts. -/
def parseGitHubUrl (url : String) : Option (String × String) :=
  if url = "" then none
  else
    match findGh notSlashWs notSlashWsQH url.data with
    | none => none
    | some (o, r) => some (⟨o⟩, ⟨stripGitSuffix r⟩)

/-- Outcome of the remote fetch of `analyzeGitHubRepo`: either the four
payloads (commit list, language map and tree already replaced by their empty
fallbacks if their individual sub-fetch failed), or a thrown error message —
`GitHub API 404: Not Found`, `GitHub API 403: ...`, a network failure, …. -/
inductive FetchOutcome where
  | ok (repoInfo : RepoInfoRaw) (commits : List CommitRaw)
       (languages : List (String × ℤ)) (treeItems : List TreeItemRaw)
  | failed (msg : String)
deriving DecidableEq

/-- The catch-branch error classification of `analyzeGitHubRepo`. -/
def classifyFetchError (msg : String) : String :=
  if strIncludes msg "404" then "Repository not found (404) — private or doesn\x27t exist"
  else if strIncludes msg "403" then "GitHub API rate limit reached — try again later"
  else "Failed to fetch: " ++ msg

/-- Embedding of `analyzeGitHubRepo` from githubAnalyzer.ts, with the remote fetch
abstracted into a `FetchOutcome` oracle.  The TypeScript function is `async`
but wraps its whole post-parse body in `try`/`catch`, so it never rejects;
here that totality is structural. -/
def analyzeGitHubRepo (githubUrl : String) (outcome : FetchOutcome) : GitHubAnalysis :=
  match parseGitHubUrl githubUrl with
  | none => createEmptyAnalysis "Invalid or missing GitHub URL"
  | some _ =>
      match outcome with
      | .ok repoInfo commits languages treeItems =>
          analyzeGitHubRepoFetched repoInfo commits languages treeItems
      | .failed msg => createEmptyAnalysis (classifyFetchError msg)

/-! ## plagiarism.ts — plagiarism / originality detector -/

/-- AI-generated marketing phrases checked against the description. -/
def AI_PATTERNS : List String :=
  ["comprehensive", "robust", "scalable", "maintainable",
   "best practices", "industry standard", "enterprise-grade",
   "production-ready", "well-documented", "thoroughly tested",
   "handles edge cases", "implements interface", "follows solid principles",
   "design pattern", "clean architecture", "state-of-the-art",
   "cutting-edge", "seamless integration", "holistic approach"]

/-- Common boilerplate project names. -/
def BOILERPLATE_PATTERNS : List String :=
  ["create-react-app", "npx create-next-app", "vite create",
   "todo app", "todo list", "calculator app", "weather app",
   "chat application", "e-commerce", "blog platform",
   "social media clone", "portfolio website", "landing page template",
   "crud application", "login registration", "authentication boilerplate"]

/-- Generic repository-keyword tokens. -/
def COMMON_REPO_KEYWORDS : List String :=
  ["tutorial", "example", "demo", "template", "starter",
   "boilerplate", "scaffold", "seed project", "clone", "copy",
   "fork", "sample"]

/-- Embedding of `countMatches` from plagiarism.ts: case-insensitive substring hits. -/
def countMatches (text : String) (patterns : List String) : ℕ :=
  (patterns.filter (fun p => strIncludes (lowerStr text) p)).length

/-- The `PlagiarismDetails` record from types/index.ts. -/
structure PlagiarismDetails where
  overallScore : ℚ
  keywordDensity : ℚ
  aiPatternScore : ℚ
  boilerplateScore : ℚ
  commitHistoryScore : ℚ
  codeModularityScore : ℚ
  flags : List String
  positives : List String
deriving DecidableEq

/-- Words of the lowercased description split on whitespace runs. -/
def descWordsOf (description : String) : List (List Char) :=
  splitRuns isWsChar (lowerStr description).data

/-- Number of distinct words of length > 3 that occur more than twice. -/
def repeatedWordCount (description : String) : ℕ :=
  let long := (descWordsOf description).filter (fun w => 3 < w.length)
  ((long.dedup).filter (fun w => 2 < long.count w)).length

/-- The commit-history-risk sub-score of `analyzePlagiarism`: the source's
sequential reassignments of `commitHistoryScore`, modelled as a chain of lets
in statement-execution order. -/
def commitHistoryRisk (githubUrl : String) (githubAnalysis : Option GitHubAnalysis) : ℚ :=
  let fetched := match githubAnalysis with
    | some gh => gh.fetched
    | none => false
  let gh := githubAnalysis.getD (createEmptyAnalysis "")
  let chsFork : ℚ := if gh.isForked then 85 else 50
  let chsMirror : ℚ := if gh.isMirror then 90 else chsFork
  let chsBurst : ℚ := if ¬gh.isForked ∧ ¬gh.isMirror then gh.burstCommitScore else chsMirror
  let chsSingle : ℚ :=
    if gh.singleAuthorPercent = 100 ∧ 2 < gh.totalCommits then max chsBurst 55 else chsBurst
  let chsFew : ℚ := if gh.totalCommits ≤ 5 then max chsSingle 60 else chsSingle
  let chsGeneric : ℚ :=
    if 50 ≤ gh.burstCommitScore ∧ 3 < gh.totalCommits then max chsFew 50 else chsFew
  if fetched then chsGeneric
  else if trimStr githubUrl = "" then 55
  else 50

/-- The code-modularity-risk sub-score of `analyzePlagiarism` (inverse of the
analyzer's modularity score, with raise-only floors). -/
def codeModularityRisk (githubUrl : String) (githubAnalysis : Option GitHubAnalysis) : ℚ :=
  let fetched := match githubAnalysis with
    | some gh => gh.fetched
    | none => false
  let gh := githubAnalysis.getD (createEmptyAnalysis "")
  let cmsBase : ℚ := (jsRound ((10 - gh.modularityScore) * 10) : ℤ)
  let cmsTests : ℚ := if ¬gh.hasTests ∧ 10 < gh.totalFiles then max cmsBase 40 else cmsBase
  let cmsReadme : ℚ := if ¬gh.hasReadme then max cmsTests 35 else cmsTests
  let cmsCI : ℚ := if ¬gh.hasCIConfig ∧ 15 < gh.totalFiles then max cmsReadme 30 else cmsReadme
  if fetched then cmsCI
  else if trimStr githubUrl = "" then 60
  else 55

/-- The source merges the analyzer-discovered flags/positives into the
accumulating list, skipping entries already present
(`if (!flags.includes(f)) flags.push(f)`). -/
def mergeUnique (acc : List String) : List String → List String
  | [] => acc
  | f :: rest => if f ∈ acc then mergeUnique acc rest else mergeUnique (acc ++ [f]) rest

/-- Embedding of `analyzePlagiarism` from plagiarism.ts. -/
def analyzePlagiarism (githubUrl : String) (description : String) (projectName : String)
    (githubAnalysis : Option GitHubAnalysis) : PlagiarismDetails :=
  let descWords := (descWordsOf description).length
  let aiMatches := countMatches description AI_PATTERNS
  let aiPatternScore : ℚ := min ((jsRound ((aiMatches : ℚ) / 5 * 100) : ℤ) : ℚ) 100
  let descFlags : List String :=
    if 4 ≤ aiMatches then [s!"Description uses {aiMatches} AI-generated phrases — likely GPT-written"]
    else if 2 ≤ aiMatches then [s!"Description has {aiMatches} AI-pattern words"]
    else []
  let descPositives : List String :=
    if aiMatches = 0 ∧ 20 < descWords then ["Description appears human-written"] else []
  let repeated := repeatedWordCount description
  let keywordDensity : ℚ :=
    min ((jsRound ((repeated : ℚ) / (max descWords 1 : ℕ) * 200) : ℤ) : ℚ) 100
  let boilerplateMatches :=
    countMatches description BOILERPLATE_PATTERNS + countMatches projectName BOILERPLATE_PATTERNS
  let nameMatches := countMatches projectName COMMON_REPO_KEYWORDS
  let boilerplateScore : ℚ := min (((boilerplateMatches + nameMatches) * 20 : ℕ) : ℚ) 100
  let boilerFlags : List String :=
    if 30 < boilerplateScore then ["Project matches common boilerplate/tutorial patterns"] else []
  let fetched := match githubAnalysis with
    | some gh => gh.fetched
    | none => false
  let gh := githubAnalysis.getD (createEmptyAnalysis "")
  let commitHistoryScore : ℚ := commitHistoryRisk githubUrl githubAnalysis
  let codeModularityScore : ℚ := codeModularityRisk githubUrl githubAnalysis
  let baseFlags := descFlags ++ boilerFlags
  let flags : List String :=
    if fetched then
      let fMirror := baseFlags
        ++ (if gh.isForked then ["⚠️ Repository is a FORK — code is copied from another repo"] else [])
        ++ (if gh.isMirror then ["⚠️ Repository is a MIRROR — not original"] else [])
      let fMerged := mergeUnique fMirror gh.flags
      let fSingle := fMerged
        ++ (if gh.singleAuthorPercent = 100 ∧ 2 < gh.totalCommits then
              ["Only 1 commit author despite claimed team — others may not have contributed code"]
            else [])
      let fFew := fSingle
        ++ (if gh.totalCommits ≤ 5 ∧ ¬(fSingle.any (fun f => strIncludes f "minimal")) then
              let tc := gh.totalCommits
              [s!"Only {tc} commits — suspiciously low development activity"]
            else [])
      fFew
        ++ (if gh.modularityScore ≤ 3 then ["Poor code organization — minimal file structure"] else [])
        ++ (if ¬gh.hasTests ∧ 10 < gh.totalFiles then ["No tests found despite substantial codebase"] else [])
        ++ (if ¬gh.hasReadme then ["No README.md — lacks documentation"] else [])
    else if trimStr githubUrl = "" then
      baseFlags ++ ["No GitHub URL provided — cannot verify code authenticity"]
    else
      baseFlags ++ ["GitHub repo could not be accessed — may be private or invalid"]
      ++ (match githubAnalysis with
          | some g => match g.error with
            | some e => [s!"Details: {e}"]
            | none => []
          | none => [])
  let positives : List String :=
    if fetched then
      mergeUnique descPositives gh.positives
      ++ (if 7 ≤ gh.modularityScore then
            let tf := gh.totalFiles
            let td := gh.totalDirs
            [s!"Good code structure ({tf} files, {td} dirs)"]
          else [])
      ++ (if gh.hasTests then ["Project includes test files"] else [])
    else descPositives
  let rawScore := jsRound (
      commitHistoryScore * 0.40
    + aiPatternScore * 0.20
    + codeModularityScore * 0.15
    + boilerplateScore * 0.15
    + keywordDensity * 0.10)
  let overallScore : ℚ := max 5 (min (rawScore : ℚ) 100)
  { overallScore := overallScore,
    keywordDensity := keywordDensity,
    aiPatternScore := aiPatternScore,
    boilerplateScore := boilerplateScore,
    commitHistoryScore := commitHistoryScore,
    codeModularityScore := codeModularityScore,
    flags := flags,
    positives := positives }

/-! ## types/index.ts — shared data model -/

/-- The eight fixed criterion keys. -/
inductive CriterionKey where
  | innovation
  | technical_feasibility
  | impact
  | mvp_completeness
  | presentation
  | code_quality
  | team_collaboration
  | originality
deriving DecidableEq

/-- The criterion table of types/index.ts (key and weight; the UI label and
icon fields are omitted). -/
def CRITERIA : List (CriterionKey × ℚ) :=
  [(.innovation, 0.25),
   (.technical_feasibility, 0.20),
   (.impact, 0.20),
   (.mvp_completeness, 0.10),
   (.presentation, 0.10),
   (.code_quality, 0.05),
   (.team_collaboration, 0.05),
   (.originality, 0.05)]

/-- The thirteen project domains of types/index.ts. -/
inductive Domain where
  | healthTech
  | smartCities
  | edTech
  | finTech
  | agriTech
  | sustainability
  | aiML
  | blockchain
  | iot
  | cybersecurity
  | gaming
  | socialImpact
  | other
deriving DecidableEq

/-- The per-criterion integer scores of an `AIScoreResult`
(`Record<string, number>` keyed by the eight criterion keys). -/
structure ScoresRec where
  innovation : ℤ
  technical_feasibility : ℤ
  impact : ℤ
  mvp_completeness : ℤ
  presentation : ℤ
  code_quality : ℤ
  team_collaboration : ℤ
  originality : ℤ
deriving DecidableEq

/-- Lookup `scores[c.key]` (every key is assigned, so the `|| 0` fallback of
the source is dead). -/
def scoreOf (s : ScoresRec) : CriterionKey → ℤ
  | .innovation => s.innovation
  | .technical_feasibility => s.technical_feasibility
  | .impact => s.impact
  | .mvp_completeness => s.mvp_completeness
  | .presentation => s.presentation
  | .code_quality => s.code_quality
  | .team_collaboration => s.team_collaboration
  | .originality => s.originality

/-- The `AIScoreResult` record (the explanation map and the wall-clock
timestamp are omitted: no claim concerns them and the timestamp is impure). -/
structure AIScoreResult where
  scores : ScoresRec
  weightedTotal : ℚ
  overallVerdict : String
deriving DecidableEq

/-- The `Project` record, restricted to the fields the four core modules
read (id, submission metadata, judge scores and recommendations omitted). -/
structure Project where
  projectName : String
  teamName : String
  githubUrl : String
  description : String
  domain : Domain
  pptFile : Option String
  pptFileName : Option String
  pptFileType : Option String
  members : List String
  plagiarismScore : ℚ
  githubAnalysis : Option GitHubAnalysis
  aiScores : Option AIScoreResult
  plagiarismDetails : Option PlagiarismDetails
deriving DecidableEq

/-! ## aiScoring.ts — heuristic scoring engine -/

/-- One domain's three keyword tiers. -/
structure DomainKw where
  high : List String
  medium : List String
  low : List String

/-- The `DOMAIN_TECH` table. -/
def domainTech : Domain → DomainKw
  | .aiML =>
      { high := ["transformer", "neural network", "deep learning", "reinforcement learning", "llm", "gpt", "bert", "diffusion", "fine-tuning", "rag", "vector database", "embeddings", "cnn", "rnn", "lstm"],
        medium := ["machine learning", "classification", "regression", "nlp", "computer vision", "opencv", "pytorch", "tensorflow", "scikit", "model training", "dataset", "prediction", "clustering"],
        low := ["ai", "artificial intelligence", "data", "algorithm", "automation", "smart"] }
  | .healthTech =>
      { high := ["ehr", "fhir", "hl7", "medical imaging", "dicom", "telemedicine", "drug discovery", "clinical trials", "genomics", "pathology", "radiology"],
        medium := ["health monitoring", "patient portal", "diagnosis", "wearable", "fitness tracker", "symptom checker", "medical records", "healthcare api"],
        low := ["health", "wellness", "doctor", "hospital", "medicine", "patient"] }
  | .finTech =>
      { high := ["payment gateway", "smart contract", "defi", "kyc", "aml", "algorithmic trading", "tokenization", "credit scoring model", "fraud detection"],
        medium := ["banking api", "upi", "wallet", "investment", "insurance", "loan", "transaction", "portfolio", "budgeting"],
        low := ["finance", "money", "payment", "banking", "fintech"] }
  | .blockchain =>
      { high := ["solidity", "smart contract", "consensus mechanism", "zero-knowledge", "zk-proof", "evm", "web3", "ipfs", "dao", "cross-chain"],
        medium := ["ethereum", "polygon", "nft", "token", "defi", "dapp", "metamask", "hardhat", "truffle", "blockchain node"],
        low := ["blockchain", "crypto", "decentralized", "ledger", "distributed"] }
  | .iot =>
      { high := ["mqtt", "embedded systems", "microcontroller", "fpga", "rtos", "edge computing", "sensor fusion", "digital twin"],
        medium := ["arduino", "raspberry pi", "esp32", "lora", "zigbee", "ble", "sensor", "actuator", "gpio", "firmware"],
        low := ["iot", "connected", "device", "smart device", "automation"] }
  | .cybersecurity =>
      { high := ["zero-day", "penetration testing", "cryptography", "vulnerability assessment", "siem", "intrusion detection", "reverse engineering", "threat modeling"],
        medium := ["firewall", "encryption", "authentication", "oauth", "jwt", "xss", "sql injection", "malware", "phishing detection", "security audit"],
        low := ["security", "privacy", "protection", "safe", "secure"] }
  | .edTech =>
      { high := ["adaptive learning", "learning management system", "gamification engine", "spaced repetition", "intelligent tutoring"],
        medium := ["online learning", "quiz platform", "video streaming", "virtual classroom", "progress tracking", "assessment", "curriculum"],
        low := ["education", "learning", "teaching", "student", "course", "school"] }
  | .smartCities =>
      { high := ["traffic optimization", "urban planning ai", "smart grid", "waste management system", "gis", "geospatial"],
        medium := ["parking system", "public transport", "air quality", "water management", "surveillance", "civic engagement", "infrastructure"],
        low := ["city", "urban", "smart", "municipal", "public"] }
  | .agriTech =>
      { high := ["precision agriculture", "crop disease detection", "soil analysis", "drone mapping", "yield prediction"],
        medium := ["irrigation", "farm management", "livestock", "weather prediction", "supply chain", "marketplace"],
        low := ["agriculture", "farming", "crop", "plant", "food"] }
  | .sustainability =>
      { high := ["carbon footprint calculator", "renewable energy optimization", "circular economy", "life cycle assessment"],
        medium := ["solar", "wind energy", "recycling", "emission tracking", "sustainable supply chain", "green energy"],
        low := ["sustainability", "environment", "green", "eco", "climate"] }
  | .gaming =>
      { high := ["game engine", "procedural generation", "multiplayer networking", "physics simulation", "shader programming"],
        medium := ["unity", "unreal", "godot", "webgl", "3d rendering", "ai npc", "level design", "matchmaking"],
        low := ["game", "gaming", "play", "player", "interactive"] }
  | .socialImpact =>
      { high := ["impact measurement", "beneficiary tracking", "social enterprise model", "inclusive design"],
        medium := ["ngo platform", "donation tracking", "volunteer management", "accessibility", "community engagement"],
        low := ["social", "community", "impact", "help", "charity"] }
  | .other =>
      { high := ["microservices", "distributed systems", "real-time processing", "graphql", "grpc"],
        medium := ["api", "database", "cloud", "docker", "kubernetes", "ci/cd", "rest", "websocket"],
        low := ["web", "app", "platform", "system", "tool"] }

/-- The `TECH_COMPLEXITY_HIGH` keyword list. -/
def TECH_COMPLEXITY_HIGH : List String :=
  ["microservices", "kubernetes", "docker", "ci/cd", "graphql", "grpc",
   "websocket", "real-time", "distributed", "load balancing", "caching",
   "redis", "elasticsearch", "message queue", "kafka", "rabbitmq",
   "serverless", "lambda", "terraform", "infrastructure as code"]

/-- The `TECH_COMPLEXITY_MEDIUM` keyword list. -/
def TECH_COMPLEXITY_MEDIUM : List String :=
  ["react", "next.js", "vue", "angular", "node.js", "express",
   "django", "flask", "fastapi", "spring boot", "postgresql",
   "mongodb", "firebase", "supabase", "aws", "azure", "gcp",
   "typescript", "tailwind", "authentication", "authorization"]

/-- Result of `analyzeGitHubUrl` (URL-shape heuristics). -/
structure UrlAnalysis where
  score : ℚ
  notes : List String
deriving DecidableEq

/-- Embedding of `analyzeGitHubUrl` from aiScoring.ts.  The inner regex
`/github\.com\/([^/]+)\/([^/\s?#]+)/` is modelled by `findGh` with the first
group excluding only `/`. -/
def analyzeGitHubUrl (url : String) : UrlAnalysis :=
  if url = "" ∨ trimStr url = "" then
    { score := 2, notes := ["No GitHub URL provided — cannot assess code quality"] }
  else
    let lower := trimStr (lowerStr url)
    if strIncludes lower "github.com/" then
      let notes0 := ["Valid GitHub repository link provided"]
      match findGh (fun c => !(c == '/')) notSlashWsQH lower.data with
      | some (org, repo) =>
          let repoGood := 3 < repo.length ∧
            ¬(["test", "demo", "sample", "example", "untitled", "my-app", "app", "project"].any
                (fun p => isPrefixList p.data repo))
          let repoStr : String := ⟨repo⟩
          let s : ℚ := 6 + (if repoGood then 1 else 0) + (if org ≠ repo then 0.5 else 0)
          { score := (clamp s : ℤ),
            notes := notes0 ++ (if repoGood then [s!"Meaningful repo name: {repoStr}"] else []) }
      | none => { score := (clamp 6 : ℤ), notes := notes0 }
    else if strIncludes lower "gitlab.com" ∨ strIncludes lower "bitbucket.org" then
      { score := (clamp 5.5 : ℤ), notes := ["Alternative Git hosting platform"] }
    else
      { score := (clamp 4 : ℤ), notes := ["URL doesn\x27t appear to be a recognized Git platform"] }

/-- JS word character (`\w`). -/
def isWordChar (c : Char) : Bool := c.isAlphanum || c == '_'

/-- Does one of the words match at the head of `s` with a right word
boundary (case-insensitive)? -/
def wordAtHead (w : List Char) (s : List Char) : Bool :=
  isPrefixCI w s &&
    (match s.drop w.length with
     | [] => true
     | d :: _ => !isWordChar d)

/-- Scan for `/\b(w1|w2|…)\b/i`: a position with a left word boundary where
some word matches with a right word boundary. -/
def hasWordTokenAux (ws : List (List Char)) (prev : Option Char) : List Char → Bool
  | [] => false
  | c :: rest =>
      ((match prev with
        | none => true
        | some p => !isWordChar p) && ws.any (fun w => wordAtHead w (c :: rest)))
      || hasWordTokenAux ws (some c) rest

/-- The `description.match(/\b(we|our|team)\b/i)` test. -/
def hasWeOurTeam (s : String) : Bool :=
  hasWordTokenAux ["we".data, "our".data, "team".data] none s.data

/-- Result of `analyzeDescription`. -/
structure DescAnalysis where
  technicalDepth : ℚ
  innovationSignals : ℚ
  impactSignals : ℚ
  clarity : ℚ
  keywords : List String
deriving DecidableEq

/-- Innovation signal words. -/
def innovationWords : List String :=
  ["novel", "unique", "first", "pioneering", "revolutionary", "innovative",
   "breakthrough", "new approach", "rethink", "reimagine", "disrupt", "patent", "original"]

/-- Generic/vague description words (each subtracts one innovation point). -/
def genericWords : List String :=
  ["simple", "basic", "todo", "clone", "copy", "like uber", "like netflix"]

/-- Impact signal words. -/
def impactWords : List String :=
  ["users", "millions", "scale", "solve", "problem", "community", "accessibility",
   "affordable", "real-world", "deployment", "production", "impact", "lives",
   "society", "reduce", "improve", "transform"]

/-- Embedding of `analyzeDescription` from aiScoring.ts. -/
def analyzeDescription (description : String) (domain : Domain) : DescAnalysis :=
  let lower := lowerStr description
  let wordCount := (splitRuns isWsChar lower.data).length
  let sentences := (splitRuns (fun c => c == '.' || c == '!' || c == '?') description.data).filter
    (fun s => 0 < (trimList s).length)
  let dt := domainTech domain
  let highM := dt.high.filter (fun kw => strIncludes lower kw)
  let medM := dt.medium.filter (fun kw => strIncludes lower kw)
  let lowM := dt.low.filter (fun kw => strIncludes lower kw)
  let tchM := TECH_COMPLEXITY_HIGH.filter (fun kw => strIncludes lower kw)
  let tcmM := TECH_COMPLEXITY_MEDIUM.filter (fun kw => strIncludes lower kw)
  let techScore : ℚ := 3 + 1.5 * highM.length + 0.8 * medM.length + 0.3 * lowM.length
    + 0.7 * tchM.length + 0.3 * tcmM.length
  let innovScore : ℚ := 3
    + (innovationWords.filter (fun w => strIncludes lower w)).length
    - (genericWords.filter (fun w => strIncludes lower w)).length
  let impactScore : ℚ := 3 + 0.7 * (impactWords.filter (fun w => strIncludes lower w)).length
  let clarity : ℚ := 4
    + (if 30 ≤ wordCount then 1 else 0)
    + (if 60 ≤ wordCount then 1 else 0)
    + (if 100 ≤ wordCount then 0.5 else 0)
    + (if 3 ≤ sentences.length then 1 else 0)
    + (if 5 ≤ sentences.length then 0.5 else 0)
    + (if strIncludes description "," then 0.3 else 0)
    + (if hasWeOurTeam description then 0.3 else 0)
  { technicalDepth := (clamp techScore : ℤ),
    innovationSignals := (clamp innovScore : ℤ),
    impactSignals := (clamp impactScore : ℤ),
    clarity := (clamp clarity : ℤ),
    keywords := dedupKeepFirst [] (highM ++ medM ++ lowM ++ tchM ++ tcmM) }

/-- Result of `analyzePPT`. -/
structure PptAnalysis where
  score : ℚ
  note : String
deriving DecidableEq

/-- Embedding of `analyzePPT` from aiScoring.ts. -/
def analyzePPT (project : Project) : PptAnalysis :=
  if ¬optTruthy project.pptFile then
    { score := 3, note := "No presentation uploaded — presentation score limited" }
  else
    let f := project.pptFile.getD ""
    let firstWord : String := ⟨((splitOnChar ' ' (lowerStr project.projectName).data).headD [])⟩
    let nameBonus : ℚ :=
      match project.pptFileName with
      | some nm =>
          let name := lowerStr nm
          (if strIncludes name firstWord then 1 else 0)
          + (if ¬(["untitled", "presentation", "document", "new"].any
                    (fun p => strStartsWith name p)) then 0.5 else 0)
      | none => 0
    let s : ℚ := 6
      + (if (match project.pptFileType with
             | some t => strIncludes t "pdf"
             | none => false) then 1 else 0)
      + nameBonus
      + (if 100000 < f.length then 0.5 else 0)
      + (if 500000 < f.length then 0.5 else 0)
    let shownName := project.pptFileName.getD "undefined"
    { score := (clamp s : ℤ),
      note := s!"Presentation uploaded ({shownName})" }

/-- Result of `analyzeTeam`. -/
structure TeamAnalysis where
  score : ℚ
  note : String
deriving DecidableEq

/-- Embedding of `analyzeTeam` from aiScoring.ts. -/
def analyzeTeam (members : List String) : TeamAnalysis :=
  let validMembers := members.filter (fun m => 0 < (trimStr m).length)
  let count := validMembers.length
  if count = 0 then { score := 4, note := "No team members listed" }
  else if count = 1 then { score := 5, note := "Solo developer" }
  else if count = 2 then { score := 6, note := "Small team (2 members)" }
  else if 3 ≤ count ∧ count ≤ 4 then { score := 8, note := s!"Well-sized team ({count} members)" }
  else if 5 ≤ count then { score := 7, note := s!"Large team ({count} members)" }
  else { score := 5, note := s!"{count} member(s)" }

/-- The six `Math.random()` draws of one `scoreProjectWithAI` run, in call
order (innovation, technical, impact, mvp, code quality, originality); each
is a value in [0,1) multiplied by its site coefficient in the formulas. -/
structure Jitter where
  rInnov : ℚ
  rTech : ℚ
  rImpact : ℚ
  rMvp : ℚ
  rCode : ℚ
  rOrig : ℚ
deriving DecidableEq

/-- The GitHub analysis a project carries, with the empty analysis standing
for `undefined` (it has `fetched = false`, so `gh?.fetched === true` and
`(ghOf p).fetched` agree). -/
def ghOf (p : Project) : GitHubAnalysis :=
  p.githubAnalysis.getD (createEmptyAnalysis "")

/-- The raw (pre-clamp) per-criterion scores: for each criterion, exactly the
argument that `scoreProjectWithAI` passes to `clamp`, including the uniform
plagiarism penalty where the source adds it. -/
structure RawScores where
  innovation : ℚ
  technical_feasibility : ℚ
  impact : ℚ
  mvp_completeness : ℚ
  presentation : ℚ
  code_quality : ℚ
  team_collaboration : ℚ
  originality : ℚ
deriving DecidableEq

/-- The pre-clamp criterion scores of `scoreProjectWithAI`, factored out of
the source body. -/
def rawScores (p : Project) (rng : Jitter) : RawScores :=
  let desc := analyzeDescription p.description p.domain
  let ghU := analyzeGitHubUrl p.githubUrl
  let ppt := analyzePPT p
  let team := analyzeTeam p.members
  let pen : ℚ := if 60 < p.plagiarismScore then -2 else if 30 < p.plagiarismScore then -1 else 0
  let g := ghOf p
  let hasGHb := g.fetched
  let membersTruthy := p.members.filter (fun m => m != "")
  { innovation :=
      ((jsRound (desc.innovationSignals * 0.5
        + (if 3 ≤ desc.keywords.length then (2 : ℚ) else if 1 ≤ desc.keywords.length then 1 else 0)
        + (if p.domain ≠ Domain.other then 1 else 0)
        + rng.rInnov * 0.8) : ℤ) : ℚ)
      - (if hasGHb ∧ g.isForked then 2 else 0) + pen,
    technical_feasibility :=
      (if hasGHb then
        ((jsRound (desc.technicalDepth * 0.3 + g.modularityScore * 0.3
          + (if 3 ≤ g.languages.length then (2 : ℚ) else if 2 ≤ g.languages.length then 1 else 0)
          + (if g.hasPackageJson then 1 else 0)
          + (if g.hasCIConfig then 1 else 0)
          + (if g.hasDockerfile then 0.5 else 0)
          + rng.rTech * 0.5) : ℤ) : ℚ)
      else
        ((jsRound (desc.technicalDepth * 0.4 + ghU.score * 0.3
          + (desc.keywords.length : ℚ) * 0.4 + rng.rTech * 0.5) : ℤ) : ℚ)) + pen,
    impact :=
      ((jsRound (desc.impactSignals * 0.5
        + (if p.domain = Domain.healthTech ∨ p.domain = Domain.socialImpact then (2 : ℚ) else 1)
        + team.score * 0.2 + rng.rImpact * 0.6) : ℤ) : ℚ) + pen,
    mvp_completeness :=
      (if hasGHb then
        ((jsRound ((if 10 ≤ g.totalFiles then (3 : ℚ) else if 5 ≤ g.totalFiles then 2 else 1)
          + (if optTruthy p.pptFile then 2 else 0)
          + (if g.hasTests then 1 else 0)
          + desc.clarity * 0.2
          + (if 0 < membersTruthy.length then 1 else 0)
          + rng.rMvp * 0.5) : ℤ) : ℚ)
      else
        ((jsRound ((if p.githubUrl ≠ "" then (2 : ℚ) else 0)
          + (if optTruthy p.pptFile then 2 else 0)
          + desc.clarity * 0.3
          + (if 0 < membersTruthy.length then 1 else 0)
          + (if 2 ≤ desc.keywords.length then 1 else 0)
          + rng.rMvp * 0.5) : ℤ) : ℚ)) + pen,
    presentation := ppt.score + pen,
    code_quality :=
      (if hasGHb then
        ((jsRound (g.cleanlinessScore * 0.4 + g.modularityScore * 0.3
          + g.commitGenuineness * 0.1 + rng.rCode * 0.5) : ℤ) : ℚ)
      else
        ((jsRound (ghU.score * 0.6 + desc.technicalDepth * 0.3 + rng.rCode * 0.5) : ℤ) : ℚ)) + pen,
    team_collaboration :=
      if hasGHb ∧ 0 < g.commitAuthors.length then
        team.score + (if 2 ≤ g.commitAuthors.length then 1 else -1)
          + (if g.singleAuthorPercent < 80 then 1 else 0)
      else team.score + pen,
    originality :=
      (if hasGHb then
        ((jsRound (g.commitGenuineness * 0.4
          + (if g.isForked then (1 : ℚ) else 4)
          + (if g.isMirror then (0 : ℚ) else 1)
          + desc.innovationSignals * 0.2 + rng.rOrig * 0.5) : ℤ) : ℚ)
      else
        ((jsRound ((10 - p.plagiarismScore / 10) * 0.5 + desc.innovationSignals * 0.3
          + (if 3 ≤ desc.keywords.length then (2 : ℚ) else 1) + rng.rOrig * 0.5) : ℤ) : ℚ)) + pen }

/-- Embedding of `scoreProjectWithAI` from aiScoring.ts.  The verdict buckets on the
unrounded weighted total, as in the source; the returned `weightedTotal` is
rounded to two decimals. -/
def scoreProjectWithAI (p : Project) (rng : Jitter) : AIScoreResult :=
  let raw := rawScores p rng
  let scores : ScoresRec :=
    { innovation := clamp raw.innovation,
      technical_feasibility := clamp raw.technical_feasibility,
      impact := clamp raw.impact,
      mvp_completeness := clamp raw.mvp_completeness,
      presentation := clamp raw.presentation,
      code_quality := clamp raw.code_quality,
      team_collaboration := clamp raw.team_collaboration,
      originality := clamp raw.originality }
  let wt : ℚ := CRITERIA.foldl (fun acc c => acc + (scoreOf scores c.1 : ℚ) * c.2) 0
  let overallVerdict :=
    if 8 ≤ wt then "🏆 Outstanding — Strong contender for top placement"
    else if 6.5 ≤ wt then "🌟 Impressive — Above-average project with solid execution"
    else if 5 ≤ wt then "👍 Promising — Good foundation with room for improvement"
    else if 3.5 ≤ wt then "📋 Needs Work — Several areas require attention"
    else "⚠️ Incomplete — Major areas need significant improvement"
  { scores := scores,
    weightedTotal := ((jsRound (wt * 100) : ℤ) : ℚ) / 100,
    overallVerdict := overallVerdict }

/-! ## aiMentorship.ts — verification gate and mentorship engine -/

/-- Status of one verification check. -/
inductive CheckStatus where
  | pass
  | warn
  | fail
deriving DecidableEq

/-- One named verification check. -/
structure VerificationCheck where
  name : String
  status : CheckStatus
  detail : String
deriving DecidableEq

/-- The `VerificationResult` record. -/
structure VerificationResult where
  passed : Bool
  checks : List VerificationCheck
  summary : String
deriving DecidableEq

/-- Number of failing checks in a list (the source maintains this count by
incrementing `failCount` at exactly the `status: "fail"` push sites). -/
def failCountOf (checks : List VerificationCheck) : ℕ :=
  (checks.filter (fun c => c.status = .fail)).length

/-- Number of warning checks in a list (the source's `warnCount`). -/
def warnCountOf (checks : List VerificationCheck) : ℕ :=
  (checks.filter (fun c => c.status = .warn)).length

/-- The domain's display string (the TS `Domain` union values). -/
def domainName : Domain → String
  | .healthTech => "HealthTech"
  | .smartCities => "SmartCities"
  | .edTech => "EdTech"
  | .finTech => "FinTech"
  | .agriTech => "AgriTech"
  | .sustainability => "Sustainability"
  | .aiML => "AI/ML"
  | .blockchain => "Blockchain"
  | .iot => "IoT"
  | .cybersecurity => "Cybersecurity"
  | .gaming => "Gaming"
  | .socialImpact => "SocialImpact"
  | .other => "Other"

/-- The description check of `verifyProject`. -/
def descriptionCheck (p : Project) : VerificationCheck :=
  let descLen := (trimStr p.description).length
  if 50 ≤ descLen then
    { name := "Description", status := .pass, detail := s!"{descLen} chars — sufficient for analysis" }
  else if 15 ≤ descLen then
    { name := "Description", status := .warn,
      detail := s!"Only {descLen} chars — limited context for mentorship" }
  else
    { name := "Description", status := .fail, detail := "No meaningful description provided" }

/-- The GitHub-repository check of `verifyProject`. -/
def githubCheck (p : Project) : VerificationCheck :=
  match p.githubAnalysis with
  | some gh =>
      if gh.fetched ∧ 0 < gh.totalCommits then
        let tc := gh.totalCommits
        let tf := gh.totalFiles
        let lc := gh.languages.length
        let langsJoined := String.intercalate ", " (gh.languages.map (fun l => l.1))
        { name := "GitHub Repo", status := .pass,
          detail := s!"Verified: {tc} commits, {tf} files, {lc} languages ({langsJoined})" }
      else if trimStr p.githubUrl ≠ "" then
        if gh.fetched = false then
          { name := "GitHub Repo", status := .warn,
            detail := "URL provided but repo data not fetched yet — run AI Score first" }
        else
          { name := "GitHub Repo", status := .warn, detail := "Repo accessible but limited data" }
      else
        { name := "GitHub Repo", status := .fail,
          detail := "No GitHub URL provided — cannot assess code quality" }
  | none =>
      if trimStr p.githubUrl ≠ "" then
        { name := "GitHub Repo", status := .warn,
          detail := "URL provided but repo data not fetched yet — run AI Score first" }
      else
        { name := "GitHub Repo", status := .fail,
          detail := "No GitHub URL provided — cannot assess code quality" }

/-- The AI-scoring check of `verifyProject` (the `toFixed(1)` display
formatting of the weighted total is not modelled in the detail string). -/
def aiScoresCheck (p : Project) : VerificationCheck :=
  match p.aiScores with
  | some ai =>
      if 0 < ai.weightedTotal then
        let wt := ai.weightedTotal
        { name := "AI Scoring", status := .pass,
          detail := s!"Scored {wt}/10 across 8 criteria" }
      else
        { name := "AI Scoring", status := .fail,
          detail := "Project has not been AI scored yet — score it first" }
  | none =>
      { name := "AI Scoring", status := .fail,
        detail := "Project has not been AI scored yet — score it first" }

/-- The plagiarism check of `verifyProject`. -/
def plagiarismCheck (p : Project) : VerificationCheck :=
  match p.plagiarismDetails with
  | some _ =>
      let ps := p.plagiarismScore
      if 60 < p.plagiarismScore then
        { name := "Plagiarism", status := .warn,
          detail := s!"High plagiarism concern ({ps}%) — mentorship may not be useful if code is not original" }
      else
        { name := "Plagiarism", status := .pass,
          detail := s!"Plagiarism risk: {ps}% — acceptable" }
  | none =>
      { name := "Plagiarism", status := .warn, detail := "Plagiarism check not run yet" }

/-- The team check of `verifyProject`. -/
def teamCheck (p : Project) : VerificationCheck :=
  let memberCount := (p.members.filter (fun m => m != "")).length
  if 2 ≤ memberCount then
    { name := "Team", status := .pass, detail := s!"{memberCount} members listed" }
  else if memberCount = 1 then
    { name := "Team", status := .pass, detail := "Solo developer" }
  else
    { name := "Team", status := .warn, detail := "No team members listed" }

/-- The domain check of `verifyProject` (`project.domain` is always a
non-empty string of the `Domain` union, so only the `!== "Other"` test can
demote the check). -/
def domainCheck (p : Project) : VerificationCheck :=
  if p.domain ≠ Domain.other then
    let dn := domainName p.domain
    { name := "Domain", status := .pass, detail := s!"Domain: {dn}" }
  else
    { name := "Domain", status := .warn,
      detail := "Generic/unspecified domain — mentorship will be less targeted" }

/-- Embedding of `verifyProject` from aiMentorship.ts: the six named checks in source
order, the pass flag and the summary sentence. -/
def verifyProject (p : Project) : VerificationResult :=
  let checks := [descriptionCheck p, githubCheck p, aiScoresCheck p,
                 plagiarismCheck p, teamCheck p, domainCheck p]
  let failCount := failCountOf checks
  let warnCount := warnCountOf checks
  let summary :=
    if 2 ≤ failCount then
      "❌ Project verification FAILED — critical data is missing. Please ensure the project has a description, AI scores, and ideally a GitHub repo before requesting mentorship."
    else if failCount = 1 then
      "⚠️ Partial verification — one critical check failed. Mentorship will proceed but may be limited."
    else if 3 ≤ warnCount then
      "⚠️ Verified with warnings — several data points are incomplete. Mentorship quality may vary."
    else
      "✅ Project fully verified — all key data points available for comprehensive mentorship."
  { passed := decide (failCount = 0), checks := checks, summary := summary }

/-- One structured mentorship recommendation (all-string record). -/
structure MentorshipAdvice where
  area : String
  currentState : String
  recommendation : String
  priority : String
  effort : String
deriving DecidableEq

/-- The `MentorshipResult` record. -/
structure MentorshipResult where
  verification : VerificationResult
  improvements : List MentorshipAdvice
  actionPlan : List String
  techSuggestions : List String
  overallAdvice : String
  timestamp : String
deriving DecidableEq

/-- The minimal "fix your data first" response returned when the
verification gate blocks (2+ failing checks). -/
def minimalMentorship (verification : VerificationResult) (timestamp : String) :
    MentorshipResult :=
  { verification := verification,
    improvements := [],
    actionPlan := ["Fix the verification issues above before requesting AI mentorship."],
    techSuggestions := [],
    overallAdvice := "Project needs more data before meaningful mentorship can be provided. Ensure AI scoring is done and a description is provided.",
    timestamp := timestamp }

/-- Embedding of `generateMentorship` from aiMentorship.ts, up to its only true
control-flow branch.  Everything past the gate (backend proxy call, optional
LLM call, rule-based fallback) performs network I/O and is modelled by the
continuation `rest` applied to the verification result; the gate itself —
return the minimal response when two or more checks fail — is embedded from
the source. -/
def generateMentorship (p : Project) (timestamp : String)
    (rest : VerificationResult → MentorshipResult) : MentorshipResult :=
  let verification := verifyProject p
  let criticalFails := failCountOf verification.checks
  if 2 ≤ criticalFails then minimalMentorship verification timestamp
  else rest verification

/-! ## Spec-side definitions and concrete instances used by the claim theorems -/

/-- The burst rule list as worded in the spec: ordered rules evaluated
top-to-bottom, the first match winning (≤2 commits ⇒ 70; one calendar day ⇒
90; span < 4 hours ⇒ 85; ≤2 distinct days and >5 commits ⇒ 65; mean gap < 30
minutes and >3 commits ⇒ 60; ≥3 days and mean gap ≥ 2 hours ⇒ 15; else 30). -/
def specBurstRules (n totalDays : ℕ) (span avgGap : ℚ) : ℚ :=
  if n ≤ 2 then 70
  else if totalDays = 1 then 90
  else if span < 4 then 85
  else if totalDays ≤ 2 ∧ 5 < n then 65
  else if avgGap < 1/2 ∧ 3 < n then 60
  else if 3 ≤ totalDays ∧ 2 ≤ avgGap then 15
  else 30

/-- The spec's generic-message adjustment: add 20, capped at 100, when more
than 60% of the commit messages are generic. -/
def specGenericBonus (b : ℚ) (heavy : Bool) : ℚ :=
  if heavy then min (b + 20) 100 else b

/-- Witness for C4 at a concrete forked, fetched analysis. -/
def c4ga : GitHubAnalysis :=
  { fetched := true, error := none, repoDescription := none,
    isForked := true, isMirror := false, hasReadme := false, hasLicense := false,
    languages := [], primaryLanguage := "Unknown", totalCommits := 0,
    commitAuthors := [], avgTimeBetweenCommits := 0, burstCommitScore := 0,
    singleAuthorPercent := 0, totalFiles := 0, totalDirs := 0,
    hasPackageJson := false, hasRequirements := false, hasDockerfile := false,
    hasCIConfig := false, hasTests := false, hasEnvExample := false,
    structureDepth := 0, modularityScore := 3, cleanlinessScore := 3,
    commitGenuineness := 3, overallRepoScore := 3, flags := [], positives := [] }

/-- The all-zero jitter (every `Math.random()` draw pinned to 0). -/
def zeroJitter : Jitter := ⟨0, 0, 0, 0, 0, 0⟩

/-- A project with a fetched GitHub analysis that has commit-author data:
on this input the scorer's team-collaboration branch ignores the plagiarism
penalty. -/
def c5gh : GitHubAnalysis :=
  { fetched := true, error := none, repoDescription := none,
    isForked := false, isMirror := false, hasReadme := false, hasLicense := false,
    languages := [], primaryLanguage := "Unknown", totalCommits := 1,
    commitAuthors := ["alice"], avgTimeBetweenCommits := 0, burstCommitScore := 70,
    singleAuthorPercent := 100, totalFiles := 0, totalDirs := 0,
    hasPackageJson := false, hasRequirements := false, hasDockerfile := false,
    hasCIConfig := false, hasTests := false, hasEnvExample := false,
    structureDepth := 0, modularityScore := 2, cleanlinessScore := 4,
    commitGenuineness := 3, overallRepoScore := 3, flags := [], positives := [] }

def c5project : Project :=
  { projectName := "p", teamName := "t", githubUrl := "https://github.com/a/b",
    description := "", domain := Domain.other, pptFile := none, pptFileName := none,
    pptFileType := none, members := ["a", "b"], plagiarismScore := 0,
    githubAnalysis := some c5gh, aiScores := none, plagiarismDetails := none }

/-- A project failing two checks: empty description and no AI scores (with a
GitHub URL present, so the repository check only warns). -/
def c9project : Project :=
  { projectName := "p", teamName := "t", githubUrl := "x", description := "",
    domain := Domain.other, pptFile := none, pptFileName := none, pptFileType := none,
    members := [], plagiarismScore := 0, githubAnalysis := none, aiScores := none,
    plagiarismDetails := none }

/-- A project with exactly one failing check (empty description); the other
five checks pass or warn. -/
def c10project : Project :=
  { projectName := "p", teamName := "t", githubUrl := "x", description := "",
    domain := Domain.healthTech, pptFile := none, pptFileName := none, pptFileType := none,
    members := ["a"], plagiarismScore := 0, githubAnalysis := none,
    aiScores := some { scores := ⟨5, 5, 5, 5, 5, 5, 5, 5⟩, weightedTotal := 5,
                       overallVerdict := "ok" },
    plagiarismDetails := some { overallScore := 5, keywordDensity := 0, aiPatternScore := 0,
                                boilerplateScore := 0, commitHistoryScore := 50,
                                codeModularityScore := 50, flags := [], positives := [] } }

/-- Scenario A repository metadata: an original (non-fork, non-mirror)
repository with no description. -/
def scenarioARepoInfo : RepoInfoRaw :=
  { name := "proj", fullName := "alice/proj", description := none,
    fork := false, mirrorUrl := none }

/-- Scenario A commit history: exactly one commit, with a meaningful (non
generic) message. -/
def scenarioACommits : List CommitRaw :=
  [{ author := "alice", timestamp := some 1700000000000,
     message := "implemented the core feature" }]

def scenarioALanguages : List (String × ℤ) := [("Python", 2048)]

/-- Scenario A file tree: a flat structure, 0 subdirectories and 4 plain
files, none of which is a test, README, CI, Docker or env-example file. -/
def scenarioATree : List TreeItemRaw :=
  [{ path := "main.py", type := "blob" },
   { path := "utils.py", type := "blob" },
   { path := "data.csv", type := "blob" },
   { path := "notes.txt", type := "blob" }]

/-- The analyzer's output for Scenario A. -/
def scenarioAAnalysis : GitHubAnalysis :=
  analyzeGitHubRepoFetched scenarioARepoInfo scenarioACommits scenarioALanguages scenarioATree

/-! ## Shared lemmas about the embedding -/

lemma le_jsRound {a : ℤ} {q : ℚ} (h : (a : ℚ) ≤ q) : a ≤ jsRound q := by
  unfold jsRound
  exact Int.le_floor.mpr (by linarith)

lemma jsRound_le {b : ℤ} {q : ℚ} (h : q ≤ (b : ℚ)) : jsRound q ≤ b := by
  unfold jsRound
  have hlt : ⌊q + 1/2⌋ < b + 1 :=
    Int.floor_lt.mpr (by push_cast; linarith)
  omega

lemma clamp_one_le (v : ℚ) : 1 ≤ clamp v :=
  le_min (by norm_num) (le_max_left 1 (jsRound v))

lemma clamp_le_ten (v : ℚ) : clamp v ≤ 10 := min_le_left 10 (max 1 (jsRound v))

lemma max5_le {x y : ℚ} (h : x = max 5 y) : 5 ≤ x := by
  rw [h]; exact le_max_left 5 y

lemma max5_min100_le {x y : ℚ} (h : x = max 5 (min y 100)) : x ≤ 100 := by
  rw [h]
  exact max_le (by norm_num) (min_le_right y 100)

lemma burstBase_range (n totalDays : ℕ) (span avg : ℚ) :
    0 ≤ burstBase n totalDays span avg ∧ burstBase n totalDays span avg ≤ 100 := by
  unfold burstBase
  split_ifs <;> norm_num

lemma burstScore_range (commits : List CommitRaw) :
    0 ≤ burstScore commits ∧ burstScore commits ≤ 100 := by
  unfold burstScore
  split_ifs with h1 h2
  · norm_num
  · obtain ⟨hb0, hb100⟩ := burstBase_range commits.length
      (distinctDayCount (commitDates commits)) (spanHours (commitDates commits))
      (avgGapRounded (commitDates commits))
    exact ⟨le_min (by linarith) (by norm_num), min_le_right _ _⟩
  · exact burstBase_range _ _ _ _

lemma foldl_max_le {l : List ℕ} {b n : ℕ} (hb : b ≤ n) (h : ∀ x ∈ l, x ≤ n) :
    l.foldl max b ≤ n := by
  induction l generalizing b with
  | nil => simpa using hb
  | cons a t ih =>
      simp only [List.foldl_cons]
      exact ih (max_le hb (h a (by simp))) (fun x hx => h x (by simp [hx]))

lemma topAuthorCount_le (commits : List CommitRaw) :
    topAuthorCount commits ≤ commits.length := by
  unfold topAuthorCount
  apply foldl_max_le (Nat.zero_le _)
  intro x hx
  simp only [List.mem_map] at hx
  obtain ⟨a, _, rfl⟩ := hx
  calc (authorNames commits).count a ≤ (authorNames commits).length :=
        List.count_le_length a (authorNames commits)
    _ = commits.length := by simp [authorNames]

lemma singleAuthorPct_range (commits : List CommitRaw) :
    0 ≤ singleAuthorPct commits ∧ singleAuthorPct commits ≤ 100 := by
  unfold singleAuthorPct
  split_ifs with h
  · norm_num
  · have hlen : 0 < commits.length := by
      cases commits with
      | nil => simp at h
      | cons a t => simp
    have hlenq : (0 : ℚ) < (commits.length : ℚ) := by exact_mod_cast hlen
    have htop : (topAuthorCount commits : ℚ) ≤ (commits.length : ℚ) := by
      exact_mod_cast topAuthorCount_le commits
    have hratio0 : (0 : ℚ) ≤ (topAuthorCount commits : ℚ) / (commits.length : ℚ) * 100 := by
      positivity
    have hratio1 : (topAuthorCount commits : ℚ) / (commits.length : ℚ) * 100 ≤ 100 := by
      have : (topAuthorCount commits : ℚ) / (commits.length : ℚ) ≤ 1 :=
        (div_le_one hlenq).mpr htop
      linarith
    constructor
    · have h0 : (0 : ℤ) ≤ jsRound ((topAuthorCount commits : ℚ) / (commits.length : ℚ) * 100) :=
        le_jsRound (by exact_mod_cast hratio0)
      exact_mod_cast h0
    · have h1 : jsRound ((topAuthorCount commits : ℚ) / (commits.length : ℚ) * 100) ≤ (100 : ℤ) :=
        jsRound_le (by exact_mod_cast hratio1)
      exact_mod_cast h1

lemma analyzeCommits_burst (commits : List CommitRaw) :
    (analyzeCommits commits).burstCommitScore = burstScore commits := by
  by_cases h : commits.isEmpty <;> simp [analyzeCommits, burstScore, h]

lemma analyzeCommits_single (commits : List CommitRaw) :
    (analyzeCommits commits).singleAuthorPercent = singleAuthorPct commits := by
  by_cases h : commits.isEmpty <;> simp [analyzeCommits, singleAuthorPct, h]

lemma fetched_burst (ri : RepoInfoRaw) (cs : List CommitRaw) (ls : List (String × ℤ))
    (tr : List TreeItemRaw) :
    (analyzeGitHubRepoFetched ri cs ls tr).burstCommitScore = burstScore cs :=
  analyzeCommits_burst cs

lemma fetched_single (ri : RepoInfoRaw) (cs : List CommitRaw) (ls : List (String × ℤ))
    (tr : List TreeItemRaw) :
    (analyzeGitHubRepoFetched ri cs ls tr).singleAuthorPercent = singleAuthorPct cs :=
  analyzeCommits_single cs

lemma fetched_modularity_shape (ri : RepoInfoRaw) (cs : List CommitRaw)
    (ls : List (String × ℤ)) (tr : List TreeItemRaw) :
    ∃ v : ℚ, (analyzeGitHubRepoFetched ri cs ls tr).modularityScore = ((clamp v : ℤ) : ℚ) :=
  ⟨_, rfl⟩

lemma fetched_cleanliness_shape (ri : RepoInfoRaw) (cs : List CommitRaw)
    (ls : List (String × ℤ)) (tr : List TreeItemRaw) :
    ∃ v : ℚ, (analyzeGitHubRepoFetched ri cs ls tr).cleanlinessScore = ((clamp v : ℤ) : ℚ) :=
  ⟨_, rfl⟩

lemma fetched_genuineness_shape (ri : RepoInfoRaw) (cs : List CommitRaw)
    (ls : List (String × ℤ)) (tr : List TreeItemRaw) :
    ∃ v : ℚ, (analyzeGitHubRepoFetched ri cs ls tr).commitGenuineness = ((clamp v : ℤ) : ℚ) :=
  ⟨_, rfl⟩

lemma fetched_overall_shape (ri : RepoInfoRaw) (cs : List CommitRaw)
    (ls : List (String × ℤ)) (tr : List TreeItemRaw) :
    ∃ v : ℚ, (analyzeGitHubRepoFetched ri cs ls tr).overallRepoScore = ((clamp v : ℤ) : ℚ) :=
  ⟨_, rfl⟩

lemma clamp_cast_range {x : ℚ} {v : ℚ} (h : x = ((clamp v : ℤ) : ℚ)) :
    ∃ k : ℤ, x = (k : ℚ) ∧ 1 ≤ k ∧ k ≤ 10 :=
  ⟨clamp v, h, clamp_one_le v, clamp_le_ten v⟩

lemma spwa_innovation (p : Project) (rng : Jitter) :
    (scoreProjectWithAI p rng).scores.innovation = clamp (rawScores p rng).innovation := rfl

lemma spwa_technical (p : Project) (rng : Jitter) :
    (scoreProjectWithAI p rng).scores.technical_feasibility
      = clamp (rawScores p rng).technical_feasibility := rfl

lemma spwa_impact (p : Project) (rng : Jitter) :
    (scoreProjectWithAI p rng).scores.impact = clamp (rawScores p rng).impact := rfl

lemma spwa_mvp (p : Project) (rng : Jitter) :
    (scoreProjectWithAI p rng).scores.mvp_completeness
      = clamp (rawScores p rng).mvp_completeness := rfl

lemma spwa_presentation (p : Project) (rng : Jitter) :
    (scoreProjectWithAI p rng).scores.presentation = clamp (rawScores p rng).presentation := rfl

lemma spwa_code_quality (p : Project) (rng : Jitter) :
    (scoreProjectWithAI p rng).scores.code_quality = clamp (rawScores p rng).code_quality := rfl

lemma spwa_team (p : Project) (rng : Jitter) :
    (scoreProjectWithAI p rng).scores.team_collaboration
      = clamp (rawScores p rng).team_collaboration := rfl

lemma spwa_originality (p : Project) (rng : Jitter) :
    (scoreProjectWithAI p rng).scores.originality = clamp (rawScores p rng).originality := rfl

lemma spwa_wt_def (p : Project) (rng : Jitter) :
    (scoreProjectWithAI p rng).weightedTotal
      = ((jsRound ((CRITERIA.foldl
            (fun acc c => acc + (scoreOf (scoreProjectWithAI p rng).scores c.1 : ℚ) * c.2) 0)
          * 100) : ℤ) : ℚ) / 100 := rfl

lemma foldl_CRITERIA (s : ScoresRec) :
    CRITERIA.foldl (fun acc c => acc + (scoreOf s c.1 : ℚ) * c.2) 0
      = (s.innovation : ℚ) * 0.25 + (s.technical_feasibility : ℚ) * 0.20
        + (s.impact : ℚ) * 0.20 + (s.mvp_completeness : ℚ) * 0.10
        + (s.presentation : ℚ) * 0.10 + (s.code_quality : ℚ) * 0.05
        + (s.team_collaboration : ℚ) * 0.05 + (s.originality : ℚ) * 0.05 := by
  simp [CRITERIA, scoreOf]
  try ring

lemma weightedTotal_bounds (p : Project) (rng : Jitter) :
    1 ≤ (scoreProjectWithAI p rng).weightedTotal
      ∧ (scoreProjectWithAI p rng).weightedTotal ≤ 10 := by
  have hw := spwa_wt_def p rng
  rw [foldl_CRITERIA] at hw
  set s := (scoreProjectWithAI p rng).scores with hs
  have b1 := clamp_one_le (rawScores p rng).innovation
  have b1' := clamp_le_ten (rawScores p rng).innovation
  have b2 := clamp_one_le (rawScores p rng).technical_feasibility
  have b2' := clamp_le_ten (rawScores p rng).technical_feasibility
  have b3 := clamp_one_le (rawScores p rng).impact
  have b3' := clamp_le_ten (rawScores p rng).impact
  have b4 := clamp_one_le (rawScores p rng).mvp_completeness
  have b4' := clamp_le_ten (rawScores p rng).mvp_completeness
  have b5 := clamp_one_le (rawScores p rng).presentation
  have b5' := clamp_le_ten (rawScores p rng).presentation
  have b6 := clamp_one_le (rawScores p rng).code_quality
  have b6' := clamp_le_ten (rawScores p rng).code_quality
  have b7 := clamp_one_le (rawScores p rng).team_collaboration
  have b7' := clamp_le_ten (rawScores p rng).team_collaboration
  have b8 := clamp_one_le (rawScores p rng).originality
  have b8' := clamp_le_ten (rawScores p rng).originality
  rw [hs, spwa_innovation, spwa_technical, spwa_impact, spwa_mvp, spwa_presentation,
      spwa_code_quality, spwa_team, spwa_originality] at hw
  have q1 : (1 : ℚ) ≤ (clamp (rawScores p rng).innovation : ℚ) := by exact_mod_cast b1
  have q1' : (clamp (rawScores p rng).innovation : ℚ) ≤ 10 := by exact_mod_cast b1'
  have q2 : (1 : ℚ) ≤ (clamp (rawScores p rng).technical_feasibility : ℚ) := by exact_mod_cast b2
  have q2' : (clamp (rawScores p rng).technical_feasibility : ℚ) ≤ 10 := by exact_mod_cast b2'
  have q3 : (1 : ℚ) ≤ (clamp (rawScores p rng).impact : ℚ) := by exact_mod_cast b3
  have q3' : (clamp (rawScores p rng).impact : ℚ) ≤ 10 := by exact_mod_cast b3'
  have q4 : (1 : ℚ) ≤ (clamp (rawScores p rng).mvp_completeness : ℚ) := by exact_mod_cast b4
  have q4' : (clamp (rawScores p rng).mvp_completeness : ℚ) ≤ 10 := by exact_mod_cast b4'
  have q5 : (1 : ℚ) ≤ (clamp (rawScores p rng).presentation : ℚ) := by exact_mod_cast b5
  have q5' : (clamp (rawScores p rng).presentation : ℚ) ≤ 10 := by exact_mod_cast b5'
  have q6 : (1 : ℚ) ≤ (clamp (rawScores p rng).code_quality : ℚ) := by exact_mod_cast b6
  have q6' : (clamp (rawScores p rng).code_quality : ℚ) ≤ 10 := by exact_mod_cast b6'
  have q7 : (1 : ℚ) ≤ (clamp (rawScores p rng).team_collaboration : ℚ) := by exact_mod_cast b7
  have q7' : (clamp (rawScores p rng).team_collaboration : ℚ) ≤ 10 := by exact_mod_cast b7'
  have q8 : (1 : ℚ) ≤ (clamp (rawScores p rng).originality : ℚ) := by exact_mod_cast b8
  have q8' : (clamp (rawScores p rng).originality : ℚ) ≤ 10 := by exact_mod_cast b8'
  set w : ℚ := (clamp (rawScores p rng).innovation : ℚ) * 0.25
    + (clamp (rawScores p rng).technical_feasibility : ℚ) * 0.20
    + (clamp (rawScores p rng).impact : ℚ) * 0.20
    + (clamp (rawScores p rng).mvp_completeness : ℚ) * 0.10
    + (clamp (rawScores p rng).presentation : ℚ) * 0.10
    + (clamp (rawScores p rng).code_quality : ℚ) * 0.05
    + (clamp (rawScores p rng).team_collaboration : ℚ) * 0.05
    + (clamp (rawScores p rng).originality : ℚ) * 0.05 with hwdef
  have hw1 : 1 ≤ w := by rw [hwdef]; linarith
  have hw10 : w ≤ 10 := by rw [hwdef]; linarith
  have hr1 : (100 : ℤ) ≤ jsRound (w * 100) := le_jsRound (by push_cast; linarith)
  have hr2 : jsRound (w * 100) ≤ (1000 : ℤ) := jsRound_le (by push_cast; linarith)
  have hq1 : (100 : ℚ) ≤ ((jsRound (w * 100) : ℤ) : ℚ) := by exact_mod_cast hr1
  have hq2 : ((jsRound (w * 100) : ℤ) : ℚ) ≤ 1000 := by exact_mod_cast hr2
  rw [hw]
  constructor <;> [linarith; linarith]

/-- Claim C1 (score range invariant): every criterion score of
`scoreProjectWithAI` is an integer in [1,10] (the embedding types them as
`ℤ`), its `weightedTotal` lies in [1,10], the plagiarism `overallScore` lies
in [5,100], and every derived repository score is an integer in [1,10] while
`burstCommitScore` and `singleAuthorPercent` lie in [0,100] — both on the
fetched path (`analyzeGitHubRepoFetched`) and on the non-fetched path
(`createEmptyAnalysis`). -/
theorem judgemate_c1_score_range_invariant :
    (∀ (p : Project) (rng : Jitter),
      (1 ≤ (scoreProjectWithAI p rng).scores.innovation
        ∧ (scoreProjectWithAI p rng).scores.innovation ≤ 10)
      ∧ (1 ≤ (scoreProjectWithAI p rng).scores.technical_feasibility
        ∧ (scoreProjectWithAI p rng).scores.technical_feasibility ≤ 10)
      ∧ (1 ≤ (scoreProjectWithAI p rng).scores.impact
        ∧ (scoreProjectWithAI p rng).scores.impact ≤ 10)
      ∧ (1 ≤ (scoreProjectWithAI p rng).scores.mvp_completeness
        ∧ (scoreProjectWithAI p rng).scores.mvp_completeness ≤ 10)
      ∧ (1 ≤ (scoreProjectWithAI p rng).scores.presentation
        ∧ (scoreProjectWithAI p rng).scores.presentation ≤ 10)
      ∧ (1 ≤ (scoreProjectWithAI p rng).scores.code_quality
        ∧ (scoreProjectWithAI p rng).scores.code_quality ≤ 10)
      ∧ (1 ≤ (scoreProjectWithAI p rng).scores.team_collaboration
        ∧ (scoreProjectWithAI p rng).scores.team_collaboration ≤ 10)
      ∧ (1 ≤ (scoreProjectWithAI p rng).scores.originality
        ∧ (scoreProjectWithAI p rng).scores.originality ≤ 10)
      ∧ (1 ≤ (scoreProjectWithAI p rng).weightedTotal
        ∧ (scoreProjectWithAI p rng).weightedTotal ≤ 10))
  ∧ (∀ (url description projectName : String) (ga : Option GitHubAnalysis),
      5 ≤ (analyzePlagiarism url description projectName ga).overallScore
      ∧ (analyzePlagiarism url description projectName ga).overallScore ≤ 100)
  ∧ (∀ (ri : RepoInfoRaw) (cs : List CommitRaw) (ls : List (String × ℤ))
        (tr : List TreeItemRaw),
      (∃ k : ℤ, (analyzeGitHubRepoFetched ri cs ls tr).modularityScore = (k : ℚ)
        ∧ 1 ≤ k ∧ k ≤ 10)
      ∧ (∃ k : ℤ, (analyzeGitHubRepoFetched ri cs ls tr).cleanlinessScore = (k : ℚ)
        ∧ 1 ≤ k ∧ k ≤ 10)
      ∧ (∃ k : ℤ, (analyzeGitHubRepoFetched ri cs ls tr).commitGenuineness = (k : ℚ)
        ∧ 1 ≤ k ∧ k ≤ 10)
      ∧ (∃ k : ℤ, (analyzeGitHubRepoFetched ri cs ls tr).overallRepoScore = (k : ℚ)
        ∧ 1 ≤ k ∧ k ≤ 10)
      ∧ (0 ≤ (analyzeGitHubRepoFetched ri cs ls tr).burstCommitScore
        ∧ (analyzeGitHubRepoFetched ri cs ls tr).burstCommitScore ≤ 100)
      ∧ (0 ≤ (analyzeGitHubRepoFetched ri cs ls tr).singleAuthorPercent
        ∧ (analyzeGitHubRepoFetched ri cs ls tr).singleAuthorPercent ≤ 100))
  ∧ (∀ e : String,
      (createEmptyAnalysis e).fetched = false
      ∧ (∃ k : ℤ, (createEmptyAnalysis e).modularityScore = (k : ℚ) ∧ 1 ≤ k ∧ k ≤ 10)
      ∧ (∃ k : ℤ, (createEmptyAnalysis e).cleanlinessScore = (k : ℚ) ∧ 1 ≤ k ∧ k ≤ 10)
      ∧ (∃ k : ℤ, (createEmptyAnalysis e).commitGenuineness = (k : ℚ) ∧ 1 ≤ k ∧ k ≤ 10)
      ∧ (∃ k : ℤ, (createEmptyAnalysis e).overallRepoScore = (k : ℚ) ∧ 1 ≤ k ∧ k ≤ 10)
      ∧ (0 ≤ (createEmptyAnalysis e).burstCommitScore
        ∧ (createEmptyAnalysis e).burstCommitScore ≤ 100)
      ∧ (0 ≤ (createEmptyAnalysis e).singleAuthorPercent
        ∧ (createEmptyAnalysis e).singleAuthorPercent ≤ 100)) := by
  refine ⟨?_, ?_, ?_, ?_⟩
  · intro p rng
    refine ⟨?_, ?_, ?_, ?_, ?_, ?_, ?_, ?_, weightedTotal_bounds p rng⟩
    · rw [spwa_innovation]; exact ⟨clamp_one_le _, clamp_le_ten _⟩
    · rw [spwa_technical]; exact ⟨clamp_one_le _, clamp_le_ten _⟩
    · rw [spwa_impact]; exact ⟨clamp_one_le _, clamp_le_ten _⟩
    · rw [spwa_mvp]; exact ⟨clamp_one_le _, clamp_le_ten _⟩
    · rw [spwa_presentation]; exact ⟨clamp_one_le _, clamp_le_ten _⟩
    · rw [spwa_code_quality]; exact ⟨clamp_one_le _, clamp_le_ten _⟩
    · rw [spwa_team]; exact ⟨clamp_one_le _, clamp_le_ten _⟩
    · rw [spwa_originality]; exact ⟨clamp_one_le _, clamp_le_ten _⟩
  · intro url description projectName ga
    exact ⟨max5_le rfl, max5_min100_le rfl⟩
  · intro ri cs ls tr
    refine ⟨clamp_cast_range (fetched_modularity_shape ri cs ls tr).choose_spec,
            clamp_cast_range (fetched_cleanliness_shape ri cs ls tr).choose_spec,
            clamp_cast_range (fetched_genuineness_shape ri cs ls tr).choose_spec,
            clamp_cast_range (fetched_overall_shape ri cs ls tr).choose_spec, ?_, ?_⟩
    · rw [fetched_burst]; exact burstScore_range cs
    · rw [fetched_single]; exact singleAuthorPct_range cs
  · intro e
    refine ⟨rfl, ⟨3, rfl, by norm_num, by norm_num⟩, ⟨3, rfl, by norm_num, by norm_num⟩,
            ⟨3, rfl, by norm_num, by norm_num⟩, ⟨3, rfl, by norm_num, by norm_num⟩,
            ⟨by norm_num [createEmptyAnalysis], by norm_num [createEmptyAnalysis]⟩,
            ⟨by norm_num [createEmptyAnalysis], by norm_num [createEmptyAnalysis]⟩⟩

/-! ## Claim C2 — commit-burst heuristic -/

lemma burstBase_eq_spec (n d : ℕ) (s a : ℚ) : burstBase n d s a = specBurstRules n d s a := by
  unfold burstBase specBurstRules
  have h05 : (0.5 : ℚ) = 1 / 2 := by norm_num
  rw [h05]

/-- Claim C2, counterexample: the claim's first rule says "≤2 commits ⇒ 70",
but on an empty commit list (0 ≤ 2 commits) `analyzeCommits` short-circuits
to a burst score of 100, not 70. -/
theorem judgemate_c2_counterexample :
    (analyzeCommits ([] : List CommitRaw)).totalCommits ≤ 2
    ∧ (analyzeCommits ([] : List CommitRaw)).burstCommitScore = 100
    ∧ (analyzeCommits ([] : List CommitRaw)).burstCommitScore ≠ 70 := by
  refine ⟨by decide, by decide, by decide⟩

/-- Claim C2, amended: for a nonempty commit list the burst score is exactly
the spec's ordered first-match rule chain (with the mean-gap rule reading the
rounded `avgTimeBetweenCommits`), followed by the +20 generic-message bonus
capped at 100; an empty commit list instead short-circuits to 100. -/
theorem judgemate_c2_commit_burst_heuristic :
    ∀ commits : List CommitRaw,
      (analyzeCommits commits).burstCommitScore =
        if commits.isEmpty then 100
        else
          specGenericBonus
            (specBurstRules commits.length (distinctDayCount (commitDates commits))
              (spanHours (commitDates commits)) (avgGapRounded (commitDates commits)))
            (genericMsgHeavy commits) := by
  intro commits
  rw [analyzeCommits_burst]
  by_cases h : commits.isEmpty
  · simp [burstScore, h]
  · simp only [burstScore, h, Bool.false_eq_true, if_false, specGenericBonus,
      burstBase_eq_spec]

/-! ## Claim C3 — plagiarism overall score -/

/-- Claim C3: for every input, the plagiarism assessment's `overallScore`
equals `round(commit*0.40 + aiPattern*0.20 + modularity*0.15 +
boilerplate*0.15 + keywordDensity*0.10)` clamped to [5,100]; in particular it
is never below 5. -/
theorem judgemate_c3_plagiarism_overall :
    ∀ (url description projectName : String) (ga : Option GitHubAnalysis),
      (analyzePlagiarism url description projectName ga).overallScore
        = max 5 (min ((jsRound
            ((analyzePlagiarism url description projectName ga).commitHistoryScore * 0.40
            + (analyzePlagiarism url description projectName ga).aiPatternScore * 0.20
            + (analyzePlagiarism url description projectName ga).codeModularityScore * 0.15
            + (analyzePlagiarism url description projectName ga).boilerplateScore * 0.15
            + (analyzePlagiarism url description projectName ga).keywordDensity * 0.10) : ℤ) : ℚ)
            100)
      ∧ 5 ≤ (analyzePlagiarism url description projectName ga).overallScore := by
  intro url description projectName ga
  exact ⟨rfl, max5_le rfl⟩

/-! ## Claim C4 — monotonic floor for forks -/

/-- Claim C4: with a fetched analysis of a forked repository, the
commit-history-risk sub-score is at least 85 regardless of every other
signal, because the later adjustments are raise-only `max` operations. -/
theorem judgemate_c4_fork_floor :
    ∀ (url description projectName : String) (ga : GitHubAnalysis),
      ga.fetched = true → ga.isForked = true →
      85 ≤ (analyzePlagiarism url description projectName (some ga)).commitHistoryScore := by
  intro url description projectName ga hf hk
  show 85 ≤ commitHistoryRisk url (some ga)
  simp only [commitHistoryRisk, Option.getD_some, hf, hk]
  split_ifs <;> simp_all <;> norm_num [le_max_iff]

theorem judgemate_c4_witness :
    85 ≤ (analyzePlagiarism "https://github.com/a/b" "" "" (some c4ga)).commitHistoryScore :=
  judgemate_c4_fork_floor "https://github.com/a/b" "" "" c4ga rfl rfl

/-! ## Claim C6 — weighted total -/

/-- Claim C6: the weighted total of `scoreProjectWithAI` is the dot product
of the eight criterion scores with the fixed weights 0.25/0.20/0.20/0.10/
0.10/0.05/0.05/0.05 (which sum to exactly 1), rounded to two decimals. -/
theorem judgemate_c6_weighted_total :
    (∀ (p : Project) (rng : Jitter),
      (scoreProjectWithAI p rng).weightedTotal
        = ((jsRound ((((scoreProjectWithAI p rng).scores.innovation : ℚ) * 0.25
            + ((scoreProjectWithAI p rng).scores.technical_feasibility : ℚ) * 0.20
            + ((scoreProjectWithAI p rng).scores.impact : ℚ) * 0.20
            + ((scoreProjectWithAI p rng).scores.mvp_completeness : ℚ) * 0.10
            + ((scoreProjectWithAI p rng).scores.presentation : ℚ) * 0.10
            + ((scoreProjectWithAI p rng).scores.code_quality : ℚ) * 0.05
            + ((scoreProjectWithAI p rng).scores.team_collaboration : ℚ) * 0.05
            + ((scoreProjectWithAI p rng).scores.originality : ℚ) * 0.05) * 100) : ℤ) : ℚ)
          / 100)
  ∧ (CRITERIA.map (fun c => c.2)).sum = 1 := by
  constructor
  · intro p rng
    rw [spwa_wt_def, foldl_CRITERIA]
  · norm_num [CRITERIA]

/-! ## Claim C5 — uniform plagiarism penalty -/

/-- Claim C5, counterexample: it is not true that the plagiarism penalty is
added to every criterion's raw score — at `c5project` (fetched analysis with
one commit author) the team-collaboration raw score is 5 under both
`plagiarismScore = 75` and `plagiarismScore = 0`, not reduced by 2. -/
theorem judgemate_c5_counterexample :
    ¬ (∀ (p : Project) (rng : Jitter),
        ((rawScores { p with plagiarismScore := 75 } rng).innovation
          = (rawScores { p with plagiarismScore := 0 } rng).innovation - 2)
        ∧ ((rawScores { p with plagiarismScore := 75 } rng).technical_feasibility
          = (rawScores { p with plagiarismScore := 0 } rng).technical_feasibility - 2)
        ∧ ((rawScores { p with plagiarismScore := 75 } rng).impact
          = (rawScores { p with plagiarismScore := 0 } rng).impact - 2)
        ∧ ((rawScores { p with plagiarismScore := 75 } rng).mvp_completeness
          = (rawScores { p with plagiarismScore := 0 } rng).mvp_completeness - 2)
        ∧ ((rawScores { p with plagiarismScore := 75 } rng).presentation
          = (rawScores { p with plagiarismScore := 0 } rng).presentation - 2)
        ∧ ((rawScores { p with plagiarismScore := 75 } rng).code_quality
          = (rawScores { p with plagiarismScore := 0 } rng).code_quality - 2)
        ∧ ((rawScores { p with plagiarismScore := 75 } rng).team_collaboration
          = (rawScores { p with plagiarismScore := 0 } rng).team_collaboration - 2)
        ∧ ((rawScores { p with plagiarismScore := 75 } rng).originality
          = (rawScores { p with plagiarismScore := 0 } rng).originality - 2)) := by
  intro h
  have h7 := (h c5project zeroJitter).2.2.2.2.2.2.1
  have ht : analyzeTeam ["a", "b"] = ⟨6, "Small team (2 members)"⟩ := by decide
  have e75 : (rawScores { c5project with plagiarismScore := 75 } zeroJitter).team_collaboration
      = 5 := by
    norm_num [rawScores, ghOf, c5project, c5gh, ht]
  have e0 : (rawScores { c5project with plagiarismScore := 0 } zeroJitter).team_collaboration
      = 5 := by
    norm_num [rawScores, ghOf, c5project, c5gh, ht]
  rw [e75, e0] at h7
  norm_num at h7

lemma analyzePPT_update (p : Project) (x : ℚ) :
    analyzePPT { p with plagiarismScore := x } = analyzePPT p := rfl

/-- Claim C5, amended: the plagiarism penalty (−2 above 60, −1 above 30,
else 0) is added before clamping to the raw scores of innovation,
technical feasibility, impact, MVP completeness, presentation and code
quality, so those six drop by exactly 2 between `plagiarismScore = 0` and
`75`; team collaboration receives the penalty only when no fetched analysis
with commit-author data is present; originality receives it too, and drops by
exactly 2 whenever repository data was fetched (on the no-repository branch
its raw formula additionally reads `plagiarismScore` directly, so the drop
there exceeds the penalty). -/
theorem judgemate_c5_plagiarism_penalty :
    ∀ (p : Project) (rng : Jitter),
      ((rawScores { p with plagiarismScore := 75 } rng).innovation
        = (rawScores { p with plagiarismScore := 0 } rng).innovation - 2)
      ∧ ((rawScores { p with plagiarismScore := 75 } rng).technical_feasibility
        = (rawScores { p with plagiarismScore := 0 } rng).technical_feasibility - 2)
      ∧ ((rawScores { p with plagiarismScore := 75 } rng).impact
        = (rawScores { p with plagiarismScore := 0 } rng).impact - 2)
      ∧ ((rawScores { p with plagiarismScore := 75 } rng).mvp_completeness
        = (rawScores { p with plagiarismScore := 0 } rng).mvp_completeness - 2)
      ∧ ((rawScores { p with plagiarismScore := 75 } rng).presentation
        = (rawScores { p with plagiarismScore := 0 } rng).presentation - 2)
      ∧ ((rawScores { p with plagiarismScore := 75 } rng).code_quality
        = (rawScores { p with plagiarismScore := 0 } rng).code_quality - 2)
      ∧ ((rawScores { p with plagiarismScore := 75 } rng).team_collaboration
        = if (ghOf p).fetched ∧ 0 < (ghOf p).commitAuthors.length
          then (rawScores { p with plagiarismScore := 0 } rng).team_collaboration
          else (rawScores { p with plagiarismScore := 0 } rng).team_collaboration - 2)
      ∧ ((ghOf p).fetched = true →
          (rawScores { p with plagiarismScore := 75 } rng).originality
            = (rawScores { p with plagiarismScore := 0 } rng).originality - 2) := by
  intro p rng
  refine ⟨?_, ?_, ?_, ?_, ?_, ?_, ?_, ?_⟩
  · simp only [rawScores, ghOf]; norm_num; ring
  · simp only [rawScores, ghOf]; norm_num; ring
  · simp only [rawScores, ghOf]; norm_num; ring
  · simp only [rawScores, ghOf]; norm_num; ring
  · simp only [rawScores, ghOf, analyzePPT_update]; norm_num; ring
  · simp only [rawScores, ghOf]; norm_num; ring
  · by_cases hc : ((ghOf p).fetched ∧ 0 < (ghOf p).commitAuthors.length)
    · simp only [rawScores, ghOf] at hc ⊢
      rw [if_pos hc, if_pos hc, if_pos hc]
    · simp only [rawScores, ghOf] at hc ⊢
      rw [if_neg hc, if_neg hc, if_neg hc]
      norm_num
      ring
  · intro hf
    simp only [ghOf] at hf
    simp only [rawScores, ghOf, hf]
    norm_num
    ring

/-- Witness for the originality implication of the amended C5 at a concrete
project with a fetched analysis. -/
theorem judgemate_c5_witness :
    (rawScores { c5project with plagiarismScore := 75 } zeroJitter).originality
      = (rawScores { c5project with plagiarismScore := 0 } zeroJitter).originality - 2 :=
  (judgemate_c5_plagiarism_penalty c5project zeroJitter).2.2.2.2.2.2.2 rfl

/-! ## Claim C7 — analyzer totality and graceful degradation -/

/-- Claim C7: `analyzeGitHubRepo` is a total function of its URL and fetch
outcome (the TypeScript body is wrapped whole in `try`/`catch`, so it never
throws); a URL on which `parseGitHubUrl` fails short-circuits — for every
fetch outcome — to the `fetched = false` record whose error notes the invalid
or missing URL, and every fetch failure (not-found, rate-limited, generic)
yields a `fetched = false` record carrying the classified error and the
conservative mid-range defaults. -/
theorem judgemate_c7_graceful_degradation :
    (∀ (url : String) (oc : FetchOutcome),
      parseGitHubUrl url = none →
        analyzeGitHubRepo url oc = createEmptyAnalysis "Invalid or missing GitHub URL")
  ∧ (∀ (url msg : String),
      (analyzeGitHubRepo url (FetchOutcome.failed msg)).fetched = false
      ∧ ((analyzeGitHubRepo url (FetchOutcome.failed msg)).error
            = some "Invalid or missing GitHub URL"
        ∨ (analyzeGitHubRepo url (FetchOutcome.failed msg)).error
            = some (classifyFetchError msg))
      ∧ (analyzeGitHubRepo url (FetchOutcome.failed msg)).modularityScore = 3
      ∧ (analyzeGitHubRepo url (FetchOutcome.failed msg)).cleanlinessScore = 3
      ∧ (analyzeGitHubRepo url (FetchOutcome.failed msg)).commitGenuineness = 3
      ∧ (analyzeGitHubRepo url (FetchOutcome.failed msg)).overallRepoScore = 3
      ∧ (analyzeGitHubRepo url (FetchOutcome.failed msg)).burstCommitScore = 50
      ∧ (analyzeGitHubRepo url (FetchOutcome.failed msg)).singleAuthorPercent = 100) := by
  constructor
  · intro url oc h
    unfold analyzeGitHubRepo
    rw [h]
  · intro url msg
    unfold analyzeGitHubRepo
    cases hp : parseGitHubUrl url with
    | none => exact ⟨rfl, Or.inl rfl, rfl, rfl, rfl, rfl, rfl, rfl⟩
    | some v => exact ⟨rfl, Or.inr rfl, rfl, rfl, rfl, rfl, rfl, rfl⟩

/-- Witness for C7 at a concrete malformed URL and a failing fetch. -/
theorem judgemate_c7_witness :
    analyzeGitHubRepo "not a url" (FetchOutcome.failed "boom")
      = createEmptyAnalysis "Invalid or missing GitHub URL" :=
  judgemate_c7_graceful_degradation.1 "not a url" (FetchOutcome.failed "boom") (by decide)

/-! ## Claims C9 and C10 — verification gate -/

lemma verifyProject_passed (p : Project) :
    (verifyProject p).passed = decide (failCountOf (verifyProject p).checks = 0) := rfl

lemma generateMentorship_def (p : Project) (ts : String)
    (rest : VerificationResult → MentorshipResult) :
    generateMentorship p ts rest
      = if 2 ≤ failCountOf (verifyProject p).checks then
          minimalMentorship (verifyProject p) ts
        else rest (verifyProject p) := rfl

/-- Claim C9: whenever two or more of the six verification checks fail,
`verifyProject` reports `passed = false` and `generateMentorship` returns
exactly the minimal "fix your data" response — empty improvements and tech
suggestions — independently of the backend/LLM continuation (it is never
invoked: the result is the same for every `rest`). -/
theorem judgemate_c9_verification_gate :
    ∀ (p : Project) (timestamp : String) (rest : VerificationResult → MentorshipResult),
      2 ≤ failCountOf (verifyProject p).checks →
        (verifyProject p).passed = false
        ∧ generateMentorship p timestamp rest = minimalMentorship (verifyProject p) timestamp
        ∧ (generateMentorship p timestamp rest).improvements = []
        ∧ (generateMentorship p timestamp rest).techSuggestions = [] := by
  intro p ts rest h
  have hg : generateMentorship p ts rest = minimalMentorship (verifyProject p) ts := by
    rw [generateMentorship_def, if_pos h]
  refine ⟨?_, hg, ?_, ?_⟩
  · rw [verifyProject_passed]
    simp only [decide_eq_false_iff_not]
    omega
  · rw [hg]; rfl
  · rw [hg]; rfl

theorem judgemate_c9_witness :
    (verifyProject c9project).passed = false
    ∧ generateMentorship c9project "ts" (fun v => minimalMentorship v "zz")
        = minimalMentorship (verifyProject c9project) "ts" := by
  have h := judgemate_c9_verification_gate c9project "ts" (fun v => minimalMentorship v "zz")
    (by decide)
  exact ⟨h.1, h.2.1⟩

/-- Claim C10: `verifyProject.passed` is true exactly when zero checks fail,
so a single failing check already yields `passed = false`; yet with exactly
one failing check `generateMentorship` proceeds past its gate to the
continuation (the gate blocks only at two or more fails). -/
theorem judgemate_c10_single_fail_gate :
    (∀ p : Project,
      (verifyProject p).passed = true ↔ failCountOf (verifyProject p).checks = 0)
  ∧ (∀ (p : Project) (timestamp : String) (rest : VerificationResult → MentorshipResult),
      failCountOf (verifyProject p).checks = 1 →
        (verifyProject p).passed = false
        ∧ generateMentorship p timestamp rest = rest (verifyProject p)) := by
  constructor
  · intro p
    rw [verifyProject_passed]
    simp
  · intro p ts rest h
    constructor
    · rw [verifyProject_passed]
      simp only [decide_eq_false_iff_not]
      omega
    · rw [generateMentorship_def, if_neg (by omega)]

theorem judgemate_c10_witness :
    (verifyProject c10project).passed = false
    ∧ generateMentorship c10project "ts" (fun v => minimalMentorship v "k")
        = minimalMentorship (verifyProject c10project) "k" := by
  have h := judgemate_c10_single_fail_gate.2 c10project "ts" (fun v => minimalMentorship v "k")
    (by decide)
  exact ⟨h.1, h.2⟩

/-! ## Claim C8 — Scenario A -/

lemma scenA_clean_shape :
    scenarioAAnalysis.cleanlinessScore
      = ((clamp (cleanlinessRaw false false false false false false 4) : ℤ) : ℚ) := rfl

lemma scenA_clean_val : scenarioAAnalysis.cleanlinessScore = 4 := by
  rw [scenA_clean_shape]
  norm_num [cleanlinessRaw, clamp, jsRound, min_def, max_def]

lemma scenA_mod_shape :
    scenarioAAnalysis.modularityScore
      = ((clamp (treeModularityRaw 4 0 1 false false false false) : ℤ) : ℚ) := rfl

lemma scenA_mod_val : scenarioAAnalysis.modularityScore = 2 := by
  rw [scenA_mod_shape]
  norm_num [treeModularityRaw, clamp, jsRound, min_def, max_def]

lemma scenA_burst_val : scenarioAAnalysis.burstCommitScore = 70 := by
  have h0 : scenarioAAnalysis.burstCommitScore = burstScore scenarioACommits :=
    fetched_burst scenarioARepoInfo scenarioACommits scenarioALanguages scenarioATree
  rw [h0]
  have ha : aiMsgCount scenarioACommits = 0 := by decide
  have hgen : genericMsgHeavy scenarioACommits = false := by
    unfold genericMsgHeavy
    rw [ha]
    simp only [decide_eq_false_iff_not]
    norm_num [scenarioACommits]
  have hne : scenarioACommits.isEmpty = false := by decide
  simp only [burstScore, hne, Bool.false_eq_true, if_false, hgen]
  norm_num [burstBase, scenarioACommits]

lemma scenA_risk_val :
    commitHistoryRisk "https://github.com/alice/proj" (some scenarioAAnalysis) = 70 := by
  have hfe : scenarioAAnalysis.fetched = true := rfl
  have hfo : scenarioAAnalysis.isForked = false := rfl
  have hmi : scenarioAAnalysis.isMirror = false := rfl
  have hct : scenarioAAnalysis.totalCommits = 1 := by decide
  simp only [commitHistoryRisk, Option.getD_some, hfe, hfo, hmi, hct, scenA_burst_val]
  norm_num [max_def]

lemma scenA_plag_chs :
    (analyzePlagiarism "https://github.com/alice/proj" "A small demo tool" "proj"
        (some scenarioAAnalysis)).commitHistoryScore
      = commitHistoryRisk "https://github.com/alice/proj" (some scenarioAAnalysis) := rfl

/-- Claim C8, counterexample: the Scenario A repository (fetched, 1 commit,
no tests, no README, 0 subdirectories, 4 files) gets `cleanlinessScore = 4`,
not ≤ 3 — with 4 files the few-files penalty never applies and the base of
the cleanliness formula is already 4. -/
theorem judgemate_c8_counterexample :
    scenarioAAnalysis.fetched = true
    ∧ scenarioAAnalysis.totalCommits = 1
    ∧ scenarioAAnalysis.hasTests = false
    ∧ scenarioAAnalysis.hasReadme = false
    ∧ scenarioAAnalysis.totalDirs = 0
    ∧ scenarioAAnalysis.totalFiles = 4
    ∧ scenarioAAnalysis.cleanlinessScore = 4
    ∧ ¬ scenarioAAnalysis.cleanlinessScore ≤ 3 := by
  refine ⟨rfl, by decide, rfl, rfl, by decide, by decide, scenA_clean_val, ?_⟩
  rw [scenA_clean_val]
  norm_num

/-- Claim C8, amended: on Scenario A the analyzer yields
`burstCommitScore = 70` and `modularityScore ≤ 2`, with `cleanlinessScore`
equal to 4 (not ≤ 3), and the plagiarism detector's commit-history-risk
sub-score is ≥ 70. -/
theorem judgemate_c8_scenario_a :
    scenarioAAnalysis.burstCommitScore = 70
    ∧ scenarioAAnalysis.modularityScore ≤ 2
    ∧ scenarioAAnalysis.cleanlinessScore = 4
    ∧ 70 ≤ (analyzePlagiarism "https://github.com/alice/proj" "A small demo tool" "proj"
              (some scenarioAAnalysis)).commitHistoryScore := by
  refine ⟨scenA_burst_val, ?_, scenA_clean_val, ?_⟩
  · rw [scenA_mod_val]
  · rw [scenA_plag_chs, scenA_risk_val]
